import Mathlib

/-!
# odoo-quickpass-sync: field mapper, RPC client and HTTP façade

A shallow embedding of `internal/odoo/hr_employee.go`, `internal/odoo/client.go`,
`internal/odoo/config.go` and `internal/server/server.go`.

Conventions of the embedding

* Go's `interface{}` holding a value decoded by `encoding/json` is the type `Json`:
  `nil`, `bool`, `float64`, `string`, `[]interface{}` and `map[string]interface{}`.
  A `float64` is represented by the rational number it denotes (a decoded JSON number
  is always finite).
* Go's `int` is `Int`; the only arithmetic on it is the conversion from `float64`.
* A Go `map[string]interface{}` is an association list; indexing a missing key gives
  the nil interface, as in Go.
* A nil pointer or nil slice is `none`.
* A Go string is a `String`. The library functions used by the code (`strings.Split` on
  a space, `strings.TrimPrefix`, `strconv.Atoi`, `time.Parse`) only look for ASCII
  characters, for which positions in bytes and in characters agree.
* Functions that return `(value, error)` return `Except`; an `error` alone is an
  `Option String` holding the message.
* The Odoo server is an oracle `World`; every `doRequest` is logged in `Net.log`.
  Output to the console (`fmt.Printf`, `log.Printf`) is not part of the model.
-/

namespace OdooSync

/-! ## Untyped JSON values -/

/-- Dynamic value of an `interface{}` produced by `json.Unmarshal`. -/
inductive Json where
  | null : Json
  | bool (b : Bool) : Json
  | num (q : ℚ) : Json
  | str (s : String) : Json
  | arr (xs : List Json) : Json
  | obj (kvs : List (String × Json)) : Json

/-- Go map type `map[string]interface{}`. -/
abbrev JMap := List (String × Json)

/-- Map lookup with the comma-ok form: `v, ok := data[key]`. -/
def JMap.find (data : JMap) (key : String) : Option Json :=
  match data with
  | [] => none
  | (k, v) :: rest => if k = key then some v else JMap.find rest key

/-- Map index expression `data[key]`: the nil interface when the key is missing. -/
def JMap.get (data : JMap) (key : String) : Json :=
  match data.find key with
  | some v => v
  | none => Json.null

/-- Type assertion `v.(float64)`. -/
def Json.asFloat64 : Json → Option ℚ
  | Json.num q => some q
  | _ => none

/-- Type assertion `v.(string)`. -/
def Json.asString : Json → Option String
  | Json.str s => some s
  | _ => none

/-- Type assertion `v.([]interface{})`. -/
def Json.asSlice : Json → Option (List Json)
  | Json.arr xs => some xs
  | _ => none

/-- Type assertion `v.(map[string]interface{})`. -/
def Json.asMap : Json → Option JMap
  | Json.obj kvs => some kvs
  | _ => none

/-- Interface comparison `v != false`: equal only for dynamic type `bool`, value `false`. -/
def Json.neFalse : Json → Bool
  | Json.bool false => false
  | _ => true

/-- Interface comparison `v != nil`. -/
def Json.neNil : Json → Bool
  | Json.null => false
  | _ => true

/-- Conversion `int(f)` of a `float64` to Go's 64-bit `int`: the fraction is discarded
(truncation towards zero). For a value outside the range of `int` the Go specification
leaves the result to the implementation; the amd64 result (the least `int`) is used. -/
def floatToInt (q : ℚ) : Int :=
  let t := Int.tdiv q.num (q.den : Int)
  if -(2 : Int) ^ 63 ≤ t ∧ t < (2 : Int) ^ 63 then t else -(2 : Int) ^ 63

/-! ## Strings -/

/-- Pieces of `s` between occurrences of the character `sep`; never empty. -/
def splitChars (sep : Char) : List Char → List (List Char)
  | [] => [[]]
  | c :: cs =>
    if c = sep then [] :: splitChars sep cs
    else
      match splitChars sep cs with
      | [] => [[c]]
      | p :: ps => (c :: p) :: ps

/-- Go `strings.Split(s, " ")`: all substrings of `s` separated by a single space. -/
def stringsSplitSpace (s : String) : List String :=
  (splitChars ' ' s.data).map String.mk

/-- Verb `%d` of `fmt.Sprintf` applied to an `int`: the decimal rendering, with a
leading `-` for a negative number. -/
def formatInt (i : Int) : String := toString i

/-! ## Typed employee record -/

/-- Go struct `Country`. -/
structure Country where
  ID : Int
  Code : String
  Name : String
  deriving DecidableEq, Repr

/-- Go struct `Commune`. -/
structure Commune where
  ID : Int
  Name : String
  deriving DecidableEq, Repr

/-- Go struct `Address`. -/
structure Address where
  Street : String
  City : String
  State : String
  deriving DecidableEq, Repr

/-- Go `time.Time` as produced by the date-only layout: midnight UTC of a civil date. -/
structure Time where
  year : Int
  month : Nat
  day : Nat
  deriving DecidableEq, Repr

/-- Go struct `HrEmployee`; its zero value is `HrEmployee.zero`. -/
structure HrEmployee where
  ID : Int
  IdentificationID : String
  Name : String
  FirstName : String
  Surname : String
  SecondSurname : String
  CountryID : Option (List Json)
  Nationality : Option Country
  WorkEmail : String
  PrivateEmail : String
  WorkPhone : String
  PrivatePhone : String
  PrivateStreet : String
  PrivateCity : String
  PrivateStateID : Option (List Json)
  PrivateAddress : Option Address
  HrCommuneID : Option (List Json)
  HrCommune : Option Commune
  Image1920 : Json
  PhotoURL : String
  Birthday : Json
  BirthdayParsed : Option Time
  Gender : String

/-- Zero value `&HrEmployee{}`. -/
def HrEmployee.zero : HrEmployee :=
  { ID := 0, IdentificationID := "", Name := "", FirstName := "", Surname := "",
    SecondSurname := "", CountryID := none, Nationality := none, WorkEmail := "",
    PrivateEmail := "", WorkPhone := "", PrivatePhone := "", PrivateStreet := "",
    PrivateCity := "", PrivateStateID := none, PrivateAddress := none,
    HrCommuneID := none, HrCommune := none, Image1920 := Json.null, PhotoURL := "",
    Birthday := Json.null, BirthdayParsed := none, Gender := "" }

/-! ## `time.Parse` with the layout `"2006-01-02"` -/

/-- Go `time.isDigit(s, i)`: index `i` is in range and holds an ASCII digit. -/
def isDigit (s : List Char) (i : Nat) : Bool :=
  match s.get? i with
  | some c => decide (48 ≤ c.toNat ∧ c.toNat ≤ 57)
  | none => false

/-- Numeric value `c - '0'` of a digit character. -/
def digitVal (c : Char) : Nat := c.toNat - 48

/-- Go `time.leadingInt`: consumes the leading digits of `s`; `none` on overflow.
The accumulator `x` is the value read so far. -/
def leadingInt (x : Nat) : List Char → Option (Nat × List Char)
  | [] => some (x, [])
  | c :: cs =>
    if c.toNat < 48 ∨ c.toNat > 57 then some (x, c :: cs)
    else if x > 2 ^ 63 / 10 then none
    else
      let y := x * 10 + c.toNat - 48
      if y > 2 ^ 63 then none else leadingInt y cs

/-- Go `time.atoi`: optional sign, then digits up to the end of the string. -/
def timeAtoi (s : List Char) : Option Int :=
  let neg := match s with
    | c :: _ => decide (c = '-')
    | [] => false
  let s := match s with
    | c :: cs => if c = '-' ∨ c = '+' then cs else c :: cs
    | [] => []
  match leadingInt 0 s with
  | none => none
  | some (q, rem) =>
    if rem.length > 0 then none
    else if neg then some (-(q : Int)) else some (q : Int)

/-- Go `time.getnum`: a one- or two-digit number; two digits are required when `fixed`. -/
def getnum (s : List Char) (fixed : Bool) : Option (Nat × List Char) :=
  if !isDigit s 0 then none
  else if !isDigit s 1 then
    if fixed then none else some (digitVal (s.getD 0 '0'), s.drop 1)
  else some (digitVal (s.getD 0 '0') * 10 + digitVal (s.getD 1 '0'), s.drop 2)

/-- Go `time.skip(value, "-")`: the literal text between two layout elements. -/
def skipDash (value : List Char) : Option (List Char) :=
  match value with
  | c :: cs => if c = '-' then some cs else none
  | [] => none

/-- Go `time.isLeap`; `%` is Go's truncated remainder. -/
def isLeap (year : Int) : Bool :=
  decide (Int.tmod year 4 = 0 ∧ (Int.tmod year 100 ≠ 0 ∨ Int.tmod year 400 = 0))

/-- Go table `time.daysBefore`: days of a non-leap year before the end of month `m`. -/
def daysBefore : List Nat :=
  [0, 31, 59, 90, 120, 151, 181, 212, 243, 273, 304, 334, 365]

/-- Go `time.daysIn(m, year)`. -/
def daysIn (m : Nat) (year : Int) : Nat :=
  if m = 2 ∧ isLeap year = true then 29
  else daysBefore.getD m 0 - daysBefore.getD (m - 1) 0

/-- Go standard library `time.Parse("2006-01-02", value)`: the layout elements are a
four-digit year, a two-digit month and a two-digit day separated by `-`; any text left
over, a month outside 1..12 or a day outside the month is an error (`none`). -/
def timeParseDate (value : List Char) : Option Time :=
  -- stdLongYear
  if value.length < 4 ∨ isDigit value 0 = false then none
  else
    match timeAtoi (value.take 4) with
    | none => none
    | some year =>
      let value := value.drop 4
      match skipDash value with
      | none => none
      | some value =>
        -- stdZeroMonth
        match getnum value true with
        | none => none
        | some (month, value) =>
          if month ≤ 0 ∨ 12 < month then none
          else
            match skipDash value with
            | none => none
            | some value =>
              -- stdZeroDay
              match getnum value true with
              | none => none
              | some (day, value) =>
                if value.length ≠ 0 then none
                else if day < 1 ∨ day > daysIn month year then none
                else some { year := year, month := month, day := day }

/-! ## Field mapper -/

/-- Go `(*EmployeeService).parseEmployeeData` (hr_employee.go). The receiver is unused. -/
def parseEmployeeData (data : JMap) : HrEmployee :=
  let employee := HrEmployee.zero
  -- ID
  let employee :=
    match (data.get "id").asFloat64 with
    | some id => { employee with ID := floatToInt id }
    | none => employee
  -- Identification ID
  let employee :=
    match (data.get "identification_id").asString with
    | some identID => { employee with IdentificationID := identID }
    | none => employee
  -- Name and its parts
  let employee :=
    match (data.get "name").asString with
    | some name =>
      let employee := { employee with Name := name }
      let parts := stringsSplitSpace name
      let employee :=
        if parts.length > 0 then { employee with FirstName := parts.getD 0 "" } else employee
      let employee :=
        if parts.length > 1 then { employee with Surname := parts.getD 1 "" } else employee
      let employee :=
        if parts.length > 2 then { employee with SecondSurname := parts.getD 2 "" }
        else employee
      employee
    | none => employee
  -- Country/Nationality
  let employee :=
    match (data.get "country_id").asSlice with
    | some countryID =>
      if countryID.length = 2 then
        let employee := { employee with CountryID := some countryID }
        match (countryID.getD 0 Json.null).asFloat64 with
        | some id =>
          match (countryID.getD 1 Json.null).asString with
          | some name =>
            { employee with
              Nationality := some { ID := floatToInt id, Name := name, Code := "" } }
          | none => employee
        | none => employee
      else employee
    | none => employee
  -- Emails
  let employee :=
    match (data.get "work_email").asString with
    | some email => { employee with WorkEmail := email }
    | none => employee
  let employee :=
    match (data.get "private_email").asString with
    | some email => { employee with PrivateEmail := email }
    | none => employee
  -- Phones
  let employee :=
    match (data.get "work_phone").asString with
    | some phone => { employee with WorkPhone := phone }
    | none => employee
  let employee :=
    match (data.get "private_phone").asString with
    | some phone => { employee with PrivatePhone := phone }
    | none => employee
  -- Address
  let employee :=
    match (data.get "private_street").asString with
    | some street => { employee with PrivateStreet := street }
    | none => employee
  let employee :=
    match (data.get "private_city").asString with
    | some city => { employee with PrivateCity := city }
    | none => employee
  -- State
  let stateName : String := ""
  let (employee, stateName) :=
    match (data.get "private_state_id").asSlice with
    | some stateID =>
      if stateID.length = 2 then
        let employee := { employee with PrivateStateID := some stateID }
        match (stateID.getD 1 Json.null).asString with
        | some name => (employee, name)
        | none => (employee, stateName)
      else (employee, stateName)
    | none => (employee, stateName)
  -- Full address
  let employee :=
    if employee.PrivateStreet ≠ "" then
      { employee with
        PrivateAddress :=
          some { Street := employee.PrivateStreet, City := employee.PrivateCity,
                 State := stateName } }
    else employee
  -- Commune
  let employee :=
    match (data.get "hr_commune").asSlice with
    | some communeID =>
      if communeID.length = 2 then
        let employee := { employee with HrCommuneID := some communeID }
        match (communeID.getD 0 Json.null).asFloat64 with
        | some id =>
          match (communeID.getD 1 Json.null).asString with
          | some name =>
            { employee with HrCommune := some { ID := floatToInt id, Name := name } }
          | none => employee
        | none => employee
      else employee
    | none => employee
  -- Photo URL
  let employee := { employee with Image1920 := data.get "image_1920" }
  let employee :=
    if (data.get "image_1920").neFalse ∧ (data.get "image_1920").neNil then
      { employee with
        PhotoURL :=
          "/web/image?model=hr.employee&id=" ++ formatInt employee.ID ++ "&field=image_1920" }
    else employee
  -- Birthday
  let employee := { employee with Birthday := data.get "birthday" }
  let employee :=
    match (data.get "birthday").asString with
    | some birthdayStr =>
      if birthdayStr ≠ "" then
        match timeParseDate birthdayStr.data with
        | some t => { employee with BirthdayParsed := some t }
        | none => employee
      else employee
    | none => employee
  -- Gender
  let employee :=
    match (data.get "gender").asString with
    | some gender => { employee with Gender := gender }
    | none => employee
  employee

/-! ### The blocks of `parseEmployeeData`, one per field group

`parseEmployeeData` is the composition of these blocks (`parseEmployeeData_blocks`);
they exist so that each field can be followed through the function. -/

/-- Block `// ID`. -/
def blockID (data : JMap) (employee : HrEmployee) : HrEmployee :=
  match (data.get "id").asFloat64 with
  | some id => { employee with ID := floatToInt id }
  | none => employee

/-- Block `// Identification ID`. -/
def blockIdentificationID (data : JMap) (employee : HrEmployee) : HrEmployee :=
  match (data.get "identification_id").asString with
  | some identID => { employee with IdentificationID := identID }
  | none => employee

/-- Block `// Name y división en partes`. -/
def blockName (data : JMap) (employee : HrEmployee) : HrEmployee :=
  match (data.get "name").asString with
  | some name =>
    let employee := { employee with Name := name }
    let parts := stringsSplitSpace name
    let employee :=
      if parts.length > 0 then { employee with FirstName := parts.getD 0 "" } else employee
    let employee :=
      if parts.length > 1 then { employee with Surname := parts.getD 1 "" } else employee
    let employee :=
      if parts.length > 2 then { employee with SecondSurname := parts.getD 2 "" }
      else employee
    employee
  | none => employee

/-- Block `// Country/Nationality`. -/
def blockCountry (data : JMap) (employee : HrEmployee) : HrEmployee :=
  match (data.get "country_id").asSlice with
  | some countryID =>
    if countryID.length = 2 then
      let employee := { employee with CountryID := some countryID }
      match (countryID.getD 0 Json.null).asFloat64 with
      | some id =>
        match (countryID.getD 1 Json.null).asString with
        | some name =>
          { employee with
            Nationality := some { ID := floatToInt id, Name := name, Code := "" } }
        | none => employee
      | none => employee
    else employee
  | none => employee

/-- Block `// Emails`, first statement. -/
def blockWorkEmail (data : JMap) (employee : HrEmployee) : HrEmployee :=
  match (data.get "work_email").asString with
  | some email => { employee with WorkEmail := email }
  | none => employee

/-- Block `// Emails`, second statement. -/
def blockPrivateEmail (data : JMap) (employee : HrEmployee) : HrEmployee :=
  match (data.get "private_email").asString with
  | some email => { employee with PrivateEmail := email }
  | none => employee

/-- Block `// Phones`, first statement. -/
def blockWorkPhone (data : JMap) (employee : HrEmployee) : HrEmployee :=
  match (data.get "work_phone").asString with
  | some phone => { employee with WorkPhone := phone }
  | none => employee

/-- Block `// Phones`, second statement. -/
def blockPrivatePhone (data : JMap) (employee : HrEmployee) : HrEmployee :=
  match (data.get "private_phone").asString with
  | some phone => { employee with PrivatePhone := phone }
  | none => employee

/-- Block `// Address`, first statement. -/
def blockPrivateStreet (data : JMap) (employee : HrEmployee) : HrEmployee :=
  match (data.get "private_street").asString with
  | some street => { employee with PrivateStreet := street }
  | none => employee

/-- Block `// Address`, second statement. -/
def blockPrivateCity (data : JMap) (employee : HrEmployee) : HrEmployee :=
  match (data.get "private_city").asString with
  | some city => { employee with PrivateCity := city }
  | none => employee

/-- Block `// State`: the record together with the local variable `stateName`. -/
def blockState (data : JMap) (employee : HrEmployee) : HrEmployee × String :=
  let stateName : String := ""
  match (data.get "private_state_id").asSlice with
  | some stateID =>
    if stateID.length = 2 then
      let employee := { employee with PrivateStateID := some stateID }
      match (stateID.getD 1 Json.null).asString with
      | some name => (employee, name)
      | none => (employee, stateName)
    else (employee, stateName)
  | none => (employee, stateName)

/-- Block `// Construir dirección completa`. -/
def blockAddress (es : HrEmployee × String) : HrEmployee :=
  let (employee, stateName) := es
  if employee.PrivateStreet ≠ "" then
    { employee with
      PrivateAddress :=
        some { Street := employee.PrivateStreet, City := employee.PrivateCity,
               State := stateName } }
  else employee

/-- Block `// Commune`. -/
def blockCommune (data : JMap) (employee : HrEmployee) : HrEmployee :=
  match (data.get "hr_commune").asSlice with
  | some communeID =>
    if communeID.length = 2 then
      let employee := { employee with HrCommuneID := some communeID }
      match (communeID.getD 0 Json.null).asFloat64 with
      | some id =>
        match (communeID.getD 1 Json.null).asString with
        | some name =>
          { employee with HrCommune := some { ID := floatToInt id, Name := name } }
        | none => employee
      | none => employee
    else employee
  | none => employee

/-- Block `// Photo URL`. -/
def blockPhoto (data : JMap) (employee : HrEmployee) : HrEmployee :=
  let employee := { employee with Image1920 := data.get "image_1920" }
  if (data.get "image_1920").neFalse ∧ (data.get "image_1920").neNil then
    { employee with
      PhotoURL :=
        "/web/image?model=hr.employee&id=" ++ formatInt employee.ID ++ "&field=image_1920" }
  else employee

/-- Block `// Birthday`. -/
def blockBirthday (data : JMap) (employee : HrEmployee) : HrEmployee :=
  let employee := { employee with Birthday := data.get "birthday" }
  match (data.get "birthday").asString with
  | some birthdayStr =>
    if birthdayStr ≠ "" then
      match timeParseDate birthdayStr.data with
      | some t => { employee with BirthdayParsed := some t }
      | none => employee
    else employee
  | none => employee

/-- Block `// Gender`. -/
def blockGender (data : JMap) (employee : HrEmployee) : HrEmployee :=
  match (data.get "gender").asString with
  | some gender => { employee with Gender := gender }
  | none => employee

/-- Value of the local variable `stateName` after the block `// State`. -/
def stateLabel (data : JMap) : String :=
  match (data.get "private_state_id").asSlice with
  | some stateID =>
    if stateID.length = 2 then
      match (stateID.getD 1 Json.null).asString with
      | some name => name
      | none => ""
    else ""
  | none => ""

/-- Reading of a raw string field that the false-for-absent convention prescribes: the
raw string when the field holds one, the empty string when it is `false`, missing or of
any other type. -/
def rawStringOrEmpty (data : JMap) (key : String) : String :=
  match data.find key with
  | some (Json.str s) => s
  | _ => ""

/-- Raw record used to exercise the tuple fields. -/
def tupleSample : JMap :=
  [("id", Json.num 7),
   ("country_id", Json.arr [Json.num 46, Json.str "Chile"]),
   ("hr_commune", Json.arr [Json.num 46, Json.str "Chile"])]

/-- Raw record in which Odoo reports every optional field as `false`. -/
def absentSample : JMap :=
  [("id", Json.num 7), ("name", Json.str "Ana Perez"), ("work_email", Json.bool false),
   ("country_id", Json.bool false), ("private_state_id", Json.bool false),
   ("hr_commune", Json.bool false), ("gender", Json.num 3)]

/-- Raw record carrying a photo. -/
def photoSample : JMap :=
  [("id", Json.num 42), ("image_1920", Json.str "iVBORw0KGgo=")]

/-- Raw record whose name has four words. -/
def nameSample : JMap :=
  [("id", Json.num 42), ("name", Json.str "Ana Maria Perez Soto")]

/-! ## Calendar dates as the specification describes them -/

/-- Leap years of the Gregorian calendar: every fourth year, except centuries not
divisible by 400. -/
def gregorianLeap (y : Int) : Prop := (4 ∣ y ∧ ¬ 100 ∣ y) ∨ 400 ∣ y

instance (y : Int) : Decidable (gregorianLeap y) :=
  inferInstanceAs (Decidable ((4 ∣ y ∧ ¬ 100 ∣ y) ∨ 400 ∣ y))

/-- Length of month `m` (1..12) of year `y` in the Gregorian calendar. -/
def calendarDaysInMonth (y : Int) (m : Nat) : Nat :=
  if m = 2 then (if gregorianLeap y then 29 else 28)
  else if m = 4 ∨ m = 6 ∨ m = 9 ∨ m = 11 then 30
  else 31

/-- The string `s` is a date in the form `YYYY-MM-DD` (four, two and two decimal digits
separated by `-`) and `t` is the valid calendar date it denotes: the month is 1..12 and
the day exists in that month of that year. -/
def DenotesDate (s : String) (t : Time) : Prop :=
  ∃ y1 y2 y3 y4 m1 m2 d1 d2 : Char,
    s.data = [y1, y2, y3, y4, '-', m1, m2, '-', d1, d2] ∧
    (y1.isDigit ∧ y2.isDigit ∧ y3.isDigit ∧ y4.isDigit ∧
      m1.isDigit ∧ m2.isDigit ∧ d1.isDigit ∧ d2.isDigit) ∧
    t.year = ((1000 * digitVal y1 + 100 * digitVal y2 + 10 * digitVal y3 + digitVal y4 : Nat)
                : Int) ∧
    t.month = 10 * digitVal m1 + digitVal m2 ∧
    t.day = 10 * digitVal d1 + digitVal d2 ∧
    1 ≤ t.month ∧ t.month ≤ 12 ∧
    1 ≤ t.day ∧ t.day ≤ calendarDaysInMonth t.year t.month

/-- Raw record with a leap-day birthday. -/
def birthdaySample : JMap :=
  [("id", Json.num 42), ("birthday", Json.str "2000-02-29")]

/-! ## Configuration (`internal/odoo/config.go`) -/

/-- Go struct `Config`. -/
structure Config where
  URL : String
  Database : String
  Username : String
  Password : String
  APIKey : String
  ClientID : String
  ClientName : String
  deriving DecidableEq, Repr

/-- Go `NewConfigFromEnv`. The process environment is the function `getenv`
(`os.Getenv`, which gives the empty string for an unset variable); the result
`(nil, err)` is `Except.error` and `(&Config, nil)` is `Except.ok`. -/
def NewConfigFromEnv (getenv : String → String) : Except String Config :=
  let url := getenv "ODOO_URL"
  if url = "" then Except.error "ODOO_URL no está configurado"
  else
    let database := getenv "ODOO_DATABASE"
    if database = "" then Except.error "ODOO_DATABASE no está configurado"
    else
      let apiKey := getenv "ODOO_API_KEY"
      let username := getenv "ODOO_USERNAME"
      let password := getenv "ODOO_PASSWORD"
      if apiKey = "" ∧ (username = "" ∨ password = "") then
        Except.error "debe configurar ODOO_API_KEY o ODOO_USERNAME+ODOO_PASSWORD"
      else
        Except.ok
          { URL := url, Database := database, Username := username, Password := password,
            APIKey := apiKey, ClientID := "default", ClientName := "Default Client" }

/-! ## JSON-RPC client (`internal/odoo/client.go`) -/

/-- Go struct `Client`; the `httpClient` field is part of the transport (`World`). -/
structure Client where
  URL : String
  Database : String
  Username : String
  Password : String
  APIKey : String
  ClientID : String
  ClientName : String
  UID : Int
  deriving DecidableEq, Repr

/-- Go `NewClient`. -/
def NewClient (config : Config) : Client :=
  { URL := config.URL, Database := config.Database, Username := config.Username,
    Password := config.Password, APIKey := config.APIKey, ClientID := config.ClientID,
    ClientName := config.ClientName, UID := 0 }

/-- Go `(*Client).GetAuthPassword`. -/
def Client.GetAuthPassword (c : Client) : String :=
  if c.APIKey ≠ "" then c.APIKey else c.Password

/-- Go struct `jsonRPCRequest`. -/
structure jsonRPCRequest where
  JSONRPC : String
  Method : String
  Params : JMap
  ID : Int

/-- Go struct `jsonRPCError`. -/
structure jsonRPCError where
  Code : Int
  Message : String
  Data : Option JMap

/-- Go struct `jsonRPCResponse`; a nil `Error` pointer is `none`. -/
structure jsonRPCResponse where
  JSONRPC : String
  ID : Int
  Result : Json
  Error : Option jsonRPCError

/-- What the network gives back for one HTTP POST issued by `doRequest`. -/
inductive HttpOutcome where
  /-- Failure of `http.NewRequest`. -/
  | requestError (msg : String) : HttpOutcome
  /-- Failure of `httpClient.Do`. -/
  | doError (msg : String) : HttpOutcome
  /-- Failure of `io.ReadAll` on the response body. -/
  | readError (msg : String) : HttpOutcome
  /-- A response with its status code, its body, and what `json.Unmarshal` makes of
  the body. -/
  | reply (status : Nat) (body : String) (decoded : Except String jsonRPCResponse) :
      HttpOutcome

/-- The Odoo server and the transport: the outcome of the `n`-th POST (counting from 0)
of a payload to a URL. -/
abbrev World := Nat → String → jsonRPCRequest → HttpOutcome

/-- The network as the program sees it: the oracle and the log of the payloads that
`doRequest` has forwarded so far, oldest first. -/
structure Net where
  world : World
  log : List jsonRPCRequest

/-- Go `(*Client).doRequest`: one JSON-RPC call to `c.URL + "/jsonrpc"`. Every invocation
is appended to the log. (`json.Marshal` cannot fail on the payloads built in this
package, so that error branch is not reachable.) -/
def Client.doRequest (c : Client) (net : Net) (payload : jsonRPCRequest) :
    Except String jsonRPCResponse × Net :=
  let net2 : Net := { net with log := net.log ++ [payload] }
  match net.world net.log.length (c.URL ++ "/jsonrpc") payload with
  | HttpOutcome.requestError msg =>
    (Except.error ("error al crear la petición HTTP: " ++ msg), net2)
  | HttpOutcome.doError msg =>
    (Except.error ("error al realizar la petición HTTP: " ++ msg), net2)
  | HttpOutcome.readError msg =>
    (Except.error ("error al leer la respuesta: " ++ msg), net2)
  | HttpOutcome.reply status body decoded =>
    if status ≠ 200 then
      (Except.error ("error HTTP " ++ toString status ++ ": " ++ body), net2)
    else
      match decoded with
      | Except.error msg =>
        (Except.error ("error al deserializar la respuesta: " ++ msg), net2)
      | Except.ok response => (Except.ok response, net2)

/-- Payload of the `common.authenticate` call with the given secret. -/
def authenticatePayload (c : Client) (secret : String) : jsonRPCRequest :=
  { JSONRPC := "2.0",
    Method := "call",
    Params :=
      [("service", Json.str "common"),
       ("method", Json.str "authenticate"),
       ("args", Json.arr [Json.str c.Database, Json.str c.Username, Json.str secret,
                          Json.obj []])],
    ID := 1 }

/-- Go `(*Client).Authenticate`: the error (`none` for nil) and the client afterwards. -/
def Client.Authenticate (c : Client) (net : Net) : Option String × Client × Net :=
  if c.APIKey ≠ "" then
    let payload := authenticatePayload c c.APIKey
    match c.doRequest net payload with
    | (Except.error err, net) =>
      (some ("error en la petición de autenticación con API Key: " ++ err), c, net)
    | (Except.ok response, net) =>
      match response.Error with
      | some e =>
        (some ("error de autenticación con API Key: " ++ e.Message
                ++ " - Verifica que la API Key sea válida"), c, net)
      | none =>
        match response.Result.asFloat64 with
        | none => (some "API Key inválida o respuesta inesperada", c, net)
        | some uid =>
          if uid = 0 then (some "API Key inválida o respuesta inesperada", c, net)
          else (none, { c with UID := floatToInt uid }, net)
  else
    let payload := authenticatePayload c c.Password
    match c.doRequest net payload with
    | (Except.error err, net) =>
      (some ("error en la petición de autenticación: " ++ err), c, net)
    | (Except.ok response, net) =>
      match response.Error with
      | some e => (some ("error de autenticación: " ++ e.Message), c, net)
      | none =>
        match response.Result.asFloat64 with
        | none => (some "credenciales inválidas o respuesta inesperada", c, net)
        | some uid =>
          if uid = 0 then (some "credenciales inválidas o respuesta inesperada", c, net)
          else (none, { c with UID := floatToInt uid }, net)

/-! ## Employee service (`internal/odoo/hr_employee.go`) -/

/-- The `fields` argument of both employee queries. -/
def employeeFields : Json :=
  Json.arr
    [Json.str "id", Json.str "identification_id", Json.str "name", Json.str "country_id",
     Json.str "work_email", Json.str "private_email", Json.str "work_phone",
     Json.str "private_phone", Json.str "private_street", Json.str "private_city",
     Json.str "private_state_id", Json.str "hr_commune", Json.str "image_1920",
     Json.str "birthday", Json.str "gender"]

/-- Payload of `execute_kw` on `hr.employee` with the given method and positional
arguments. -/
def executePayload (c : Client) (method : String) (positional : Json) : jsonRPCRequest :=
  { JSONRPC := "2.0",
    Method := "call",
    Params :=
      [("service", Json.str "object"),
       ("method", Json.str "execute_kw"),
       ("args", Json.arr [Json.str c.Database, Json.num (c.UID : ℚ),
                          Json.str c.GetAuthPassword, Json.str "hr.employee",
                          Json.str method, positional,
                          Json.obj [("fields", employeeFields)]])],
    ID := 1 }

/-- Go `(*EmployeeService).GetAllEmployees`; the service holds the client `c`. -/
def GetAllEmployees (c : Client) (net : Net) : Except String (List HrEmployee) × Net :=
  if c.UID = 0 then (Except.error "cliente no autenticado", net)
  else
    let payload := executePayload c "search_read" (Json.arr [Json.arr []])
    match c.doRequest net payload with
    | (Except.error err, net) => (Except.error ("error obteniendo empleados: " ++ err), net)
    | (Except.ok response, net) =>
      match response.Error with
      | some e => (Except.error ("error de Odoo: " ++ e.Message), net)
      | none =>
        match response.Result.asSlice with
        | none => (Except.error "formato de respuesta inválido", net)
        | some resultSlice =>
          let employees : List HrEmployee :=
            resultSlice.foldl
              (fun employees item =>
                match item.asMap with
                | none => employees
                | some empData => employees ++ [parseEmployeeData empData])
              []
          (Except.ok employees, net)

/-- Go `(*EmployeeService).GetEmployeeByID`. -/
def GetEmployeeByID (c : Client) (net : Net) (employeeID : Int) :
    Except String HrEmployee × Net :=
  if c.UID = 0 then (Except.error "cliente no autenticado", net)
  else
    let payload := executePayload c "read" (Json.arr [Json.arr [Json.num (employeeID : ℚ)]])
    match c.doRequest net payload with
    | (Except.error err, net) => (Except.error ("error obteniendo empleado: " ++ err), net)
    | (Except.ok response, net) =>
      match response.Error with
      | some e => (Except.error ("error de Odoo: " ++ e.Message), net)
      | none =>
        match response.Result.asSlice with
        | none =>
          (Except.error ("empleado no encontrado con ID: " ++ formatInt employeeID), net)
        | some resultSlice =>
          match resultSlice with
          | [] =>
            (Except.error ("empleado no encontrado con ID: " ++ formatInt employeeID), net)
          | first :: _ =>
            match first.asMap with
            | none => (Except.error "formato de respuesta inválido", net)
            | some empData => (Except.ok (parseEmployeeData empData), net)

/-! ## HTTP façade (`internal/server/server.go`) -/

/-- Go `strings.TrimPrefix(s, pre)`: `s` without the leading `pre`, or `s` itself when
it does not start with `pre`. -/
def stringsTrimPrefix (s pre : String) : String :=
  if pre.data.isPrefixOf s.data then String.mk (s.data.drop pre.data.length) else s

/-- Go `strconv.Atoi`: an optional sign followed by one or more decimal digits, whose
value fits the 64-bit `int`; anything else is an error (`none`). -/
def strconvAtoi (s : String) : Option Int :=
  let signed : Bool × List Char :=
    match s.data with
    | c :: cs =>
      if c = '-' then (true, cs) else if c = '+' then (false, cs) else (false, c :: cs)
    | [] => (false, [])
  let digits := signed.2
  if digits = [] then none
  else if digits.all Char.isDigit then
    let n : Nat := digits.foldl (fun acc c => acc * 10 + digitVal c) 0
    let v : Int := if signed.1 then -(n : Int) else (n : Int)
    if -(2 : Int) ^ 63 ≤ v ∧ v < (2 : Int) ^ 63 then some v else none
  else none

/-- The part of `*http.Request` the handlers read: `r.Method` and `r.URL.Path`. -/
structure Request where
  Method : String
  Path : String
  deriving DecidableEq, Repr

/-- A value stored in the `map[string]interface{}` that a handler sends as JSON. -/
inductive BodyValue where
  | str (s : String) : BodyValue
  | bool (b : Bool) : BodyValue
  | int (i : Int) : BodyValue
  | employee (e : HrEmployee) : BodyValue
  | employees (es : List HrEmployee) : BodyValue

/-- What `sendJSON` writes: the status code and the encoded map. -/
structure Response where
  status : Nat
  body : List (String × BodyValue)

/-- Go struct `Server`; a nil `odooClient` is `none`. The client is held by pointer, so
a handler that authenticates leaves the updated client in the server. -/
structure Server where
  port : String
  odooClient : Option Client

/-- Result of running a handler: the response written, the server afterwards and the
network afterwards. -/
structure Handled where
  response : Response
  server : Server
  net : Net

/-- Go `(*Server).sendJSON`. -/
def sendJSON (status : Nat) (data : List (String × BodyValue)) : Response :=
  { status := status, body := data }

/-- The block `// Autenticar si es necesario` of both handlers: `Authenticate` is called
only when the UID is 0. The result is the error (if any), the client afterwards and the
network afterwards. -/
def lazyAuthenticate (client : Client) (net : Net) : Option String × Client × Net :=
  if client.UID = 0 then client.Authenticate net else (none, client, net)

/-- Go `(*Server).handleGetEmployees`. -/
def handleGetEmployees (s : Server) (net : Net) (r : Request) : Handled :=
  if r.Method ≠ "GET" then
    { response := sendJSON 405 [("error", BodyValue.str "Método no permitido. Use GET")],
      server := s, net := net }
  else
    match s.odooClient with
    | none =>
      { response := sendJSON 503 [("error", BodyValue.str "Cliente Odoo no configurado")],
        server := s, net := net }
    | some client =>
      let (authErr, client, net) := lazyAuthenticate client net
      let s : Server := { s with odooClient := some client }
      match authErr with
      | some err =>
        { response :=
            sendJSON 503 [("error", BodyValue.str ("Error autenticando con Odoo: " ++ err))],
          server := s, net := net }
      | none =>
        match GetAllEmployees client net with
        | (Except.error err, net) =>
          { response :=
              sendJSON 500
                [("error", BodyValue.str ("Error obteniendo empleados: " ++ err))],
            server := s, net := net }
        | (Except.ok employees, net) =>
          { response :=
              sendJSON 200
                [("success", BodyValue.bool true),
                 ("count", BodyValue.int employees.length),
                 ("data", BodyValue.employees employees)],
            server := s, net := net }

/-- Go `(*Server).handleGetEmployeeByID`. -/
def handleGetEmployeeByID (s : Server) (net : Net) (r : Request) : Handled :=
  if r.Method ≠ "GET" then
    { response := sendJSON 405 [("error", BodyValue.str "Método no permitido. Use GET")],
      server := s, net := net }
  else
    let path := stringsTrimPrefix r.Path "/api/v1/employees/"
    if path = "" ∨ path = r.Path then handleGetEmployees s net r
    else
      match strconvAtoi path with
      | none =>
        { response := sendJSON 400 [("error", BodyValue.str "ID de empleado inválido")],
          server := s, net := net }
      | some employeeID =>
        match s.odooClient with
        | none =>
          { response :=
              sendJSON 503 [("error", BodyValue.str "Cliente Odoo no configurado")],
            server := s, net := net }
        | some client =>
          let (authErr, client, net) := lazyAuthenticate client net
          let s : Server := { s with odooClient := some client }
          match authErr with
          | some err =>
            { response :=
                sendJSON 503
                  [("error", BodyValue.str ("Error autenticando con Odoo: " ++ err))],
              server := s, net := net }
          | none =>
            match GetEmployeeByID client net employeeID with
            | (Except.error err, net) =>
              { response :=
                  sendJSON 404
                    [("error", BodyValue.str ("Empleado no encontrado: " ++ err))],
                server := s, net := net }
            | (Except.ok employee, net) =>
              { response :=
                  sendJSON 200
                    [("success", BodyValue.bool true),
                     ("data", BodyValue.employee employee)],
                server := s, net := net }

/-- Whether a logged payload is the `common.authenticate` call. -/
def isAuthenticateCall (p : jsonRPCRequest) : Bool :=
  match p.Params.get "method" with
  | Json.str m => decide (m = "authenticate")
  | _ => false

/-- The payloads a handler forwarded: the log entries added to those of `before`. -/
def callsSince (before : Net) (after : Net) : List jsonRPCRequest :=
  after.log.drop before.log.length

/-- An environment with an API key and no password. -/
def apiKeyEnv (name : String) : String :=
  if name = "ODOO_URL" then "https://odoo.example.com"
  else if name = "ODOO_DATABASE" then "prod"
  else if name = "ODOO_API_KEY" then "k3y"
  else if name = "ODOO_USERNAME" then "admin"
  else ""

/-- A client that has not authenticated yet, configured with an API key. -/
def freshClient : Client :=
  { URL := "https://odoo.example.com", Database := "prod", Username := "admin",
    Password := "", APIKey := "k3y", ClientID := "default", ClientName := "Default Client",
    UID := 0 }

/-- An Odoo server that answers `authenticate` (the first call) with UID 7 and every
later call with an empty list. -/
def friendlyWorld : World := fun n _ _ =>
  HttpOutcome.reply 200 ""
    (Except.ok { JSONRPC := "2.0", ID := 1,
                 Result := if n = 0 then Json.num 7 else Json.arr [],
                 Error := none })

/-- An Odoo server that cannot be reached. -/
def deadWorld : World := fun _ _ _ => HttpOutcome.doError "connection refused"

/-- The network before any call, in front of `friendlyWorld`. -/
def friendlyNet : Net := { world := friendlyWorld, log := [] }

/-- The network before any call, in front of `deadWorld`. -/
def deadNet : Net := { world := deadWorld, log := [] }

/-- An Odoo server that answers `authenticate` (the first call) with UID 7 and every
later call with a list holding one employee record. -/
def recordWorld : World := fun n _ _ =>
  HttpOutcome.reply 200 ""
    (Except.ok { JSONRPC := "2.0", ID := 1,
                 Result :=
                   if n = 0 then Json.num 7
                   else Json.arr [Json.obj [("id", Json.num 12), ("name", Json.str "Ana Perez")]],
                 Error := none })

/-- The network before any call, in front of `recordWorld`. -/
def recordNet : Net := { world := recordWorld, log := [] }

/-- A server whose Odoo client has not authenticated yet. -/
def freshServer : Server := { port := "8081", odooClient := some freshClient }

/-- A server whose Odoo client already holds UID 7. -/
def readyServer : Server :=
  { port := "8081", odooClient := some { freshClient with UID := 7 } }

/-- A server started without Odoo configuration. -/
def bareServer : Server := { port := "8081", odooClient := none }

/-- A GET request for the employee list. -/
def listRequest : Request := { Method := "GET", Path := "/api/v1/employees" }

/-- A POST request to the employee list. -/
def postRequest : Request := { Method := "POST", Path := "/api/v1/employees" }

/-- A GET request for employee 12. -/
def byIdRequest : Request := { Method := "GET", Path := "/api/v1/employees/12" }

/-- Raw record with a street, no city and a state tuple. -/
def addressSample : JMap :=
  [("id", Json.num 42), ("private_street", Json.str "Av. Siempre Viva 742"),
   ("private_city", Json.bool false),
   ("private_state_id", Json.arr [Json.num 3, Json.str "RM"])]

/-- An error-free response whose result lists two employee records and one stray number. -/
def mixedResponse : jsonRPCResponse :=
  { JSONRPC := "2.0", ID := 1,
    Result :=
      Json.arr [Json.obj [("id", Json.num 12), ("name", Json.str "Ana Perez")],
                Json.num 5,
                Json.obj [("id", Json.num 13), ("name", Json.str "Luis Soto")]],
    Error := none }

/-- An Odoo server that answers every call with `mixedResponse`. -/
def mixedWorld : World := fun _ _ _ => HttpOutcome.reply 200 "" (Except.ok mixedResponse)

/-- The network before any call, in front of `mixedWorld`. -/
def mixedNet : Net := { world := mixedWorld, log := [] }

/-- A client that already holds UID 7. -/
def readyClient : Client := { freshClient with UID := 7 }

/-! # Theorems -/

/-- The body of `parseEmployeeData` is its blocks run in source order. -/
theorem parseEmployeeData_blocks (data : JMap) :
    parseEmployeeData data =
      blockGender data (blockBirthday data (blockPhoto data (blockCommune data
        (blockAddress (blockState data (blockPrivateCity data (blockPrivateStreet data
          (blockPrivatePhone data (blockWorkPhone data (blockPrivateEmail data
            (blockWorkEmail data (blockCountry data (blockName data
              (blockIdentificationID data (blockID data HrEmployee.zero))))))))))))))) :=
  rfl

/-! ### Effect of each block as a record update -/

theorem blockID_eq (data : JMap) (e : HrEmployee) :
    blockID data e =
      { e with ID := match (data.get "id").asFloat64 with
                     | some id => floatToInt id
                     | none => e.ID } := by
  unfold blockID; split <;> rename_i h <;> simp only [h]

theorem blockIdentificationID_eq (data : JMap) (e : HrEmployee) :
    blockIdentificationID data e =
      { e with IdentificationID := match (data.get "identification_id").asString with
                                   | some v => v
                                   | none => e.IdentificationID } := by
  unfold blockIdentificationID; split <;> rename_i h <;> simp only [h]

theorem blockCountry_eq (data : JMap) (e : HrEmployee) :
    blockCountry data e =
      { e with
        CountryID := match (data.get "country_id").asSlice with
          | some countryID => if countryID.length = 2 then some countryID else e.CountryID
          | none => e.CountryID
        Nationality := match (data.get "country_id").asSlice with
          | some countryID =>
            if countryID.length = 2 then
              match (countryID.getD 0 Json.null).asFloat64,
                    (countryID.getD 1 Json.null).asString with
              | some id, some name => some { ID := floatToInt id, Name := name, Code := "" }
              | _, _ => e.Nationality
            else e.Nationality
          | none => e.Nationality } := by
  unfold blockCountry
  split
  · rename_i countryID h
    simp only [h]
    split
    · split
      · split <;> simp_all
      · simp_all
    · rfl
  · rename_i h; simp only [h]

theorem blockWorkEmail_eq (data : JMap) (e : HrEmployee) :
    blockWorkEmail data e =
      { e with WorkEmail := match (data.get "work_email").asString with
                  | some v => v
                  | none => e.WorkEmail } := by
  unfold blockWorkEmail; split <;> rename_i h <;> simp only [h]

theorem blockPrivateEmail_eq (data : JMap) (e : HrEmployee) :
    blockPrivateEmail data e =
      { e with PrivateEmail := match (data.get "private_email").asString with
                  | some v => v
                  | none => e.PrivateEmail } := by
  unfold blockPrivateEmail; split <;> rename_i h <;> simp only [h]

theorem blockWorkPhone_eq (data : JMap) (e : HrEmployee) :
    blockWorkPhone data e =
      { e with WorkPhone := match (data.get "work_phone").asString with
                  | some v => v
                  | none => e.WorkPhone } := by
  unfold blockWorkPhone; split <;> rename_i h <;> simp only [h]

theorem blockPrivatePhone_eq (data : JMap) (e : HrEmployee) :
    blockPrivatePhone data e =
      { e with PrivatePhone := match (data.get "private_phone").asString with
                  | some v => v
                  | none => e.PrivatePhone } := by
  unfold blockPrivatePhone; split <;> rename_i h <;> simp only [h]

theorem blockPrivateStreet_eq (data : JMap) (e : HrEmployee) :
    blockPrivateStreet data e =
      { e with PrivateStreet := match (data.get "private_street").asString with
                  | some v => v
                  | none => e.PrivateStreet } := by
  unfold blockPrivateStreet; split <;> rename_i h <;> simp only [h]

theorem blockPrivateCity_eq (data : JMap) (e : HrEmployee) :
    blockPrivateCity data e =
      { e with PrivateCity := match (data.get "private_city").asString with
                  | some v => v
                  | none => e.PrivateCity } := by
  unfold blockPrivateCity; split <;> rename_i h <;> simp only [h]

theorem blockGender_eq (data : JMap) (e : HrEmployee) :
    blockGender data e =
      { e with Gender := match (data.get "gender").asString with
                  | some v => v
                  | none => e.Gender } := by
  unfold blockGender; split <;> rename_i h <;> simp only [h]

theorem blockName_eq (data : JMap) (e : HrEmployee) :
    blockName data e =
      { e with
        Name := match (data.get "name").asString with
          | some name => name
          | none => e.Name
        FirstName := match (data.get "name").asString with
          | some name =>
            if (stringsSplitSpace name).length > 0 then (stringsSplitSpace name).getD 0 ""
            else e.FirstName
          | none => e.FirstName
        Surname := match (data.get "name").asString with
          | some name =>
            if (stringsSplitSpace name).length > 1 then (stringsSplitSpace name).getD 1 ""
            else e.Surname
          | none => e.Surname
        SecondSurname := match (data.get "name").asString with
          | some name =>
            if (stringsSplitSpace name).length > 2 then (stringsSplitSpace name).getD 2 ""
            else e.SecondSurname
          | none => e.SecondSurname } := by
  unfold blockName
  split
  · rename_i name h
    simp only [h]
    split <;> split <;> split <;> simp_all
  · rename_i h; simp only [h]

theorem blockState_eq (data : JMap) (e : HrEmployee) :
    blockState data e =
      ({ e with
         PrivateStateID := match (data.get "private_state_id").asSlice with
           | some stateID => if stateID.length = 2 then some stateID else e.PrivateStateID
           | none => e.PrivateStateID },
       stateLabel data) := by
  unfold blockState stateLabel
  split
  · rename_i stateID h
    simp only [h]
    split
    · split <;> simp_all
    · rfl
  · rename_i h; simp only [h]

theorem blockAddress_eq (e : HrEmployee) (stateName : String) :
    blockAddress (e, stateName) =
      { e with
        PrivateAddress :=
          if e.PrivateStreet ≠ "" then
            some { Street := e.PrivateStreet, City := e.PrivateCity, State := stateName }
          else e.PrivateAddress } := by
  unfold blockAddress
  simp only
  split <;> rfl

theorem blockCommune_eq (data : JMap) (e : HrEmployee) :
    blockCommune data e =
      { e with
        HrCommuneID := match (data.get "hr_commune").asSlice with
          | some communeID => if communeID.length = 2 then some communeID else e.HrCommuneID
          | none => e.HrCommuneID
        HrCommune := match (data.get "hr_commune").asSlice with
          | some communeID =>
            if communeID.length = 2 then
              match (communeID.getD 0 Json.null).asFloat64,
                    (communeID.getD 1 Json.null).asString with
              | some id, some name => some { ID := floatToInt id, Name := name }
              | _, _ => e.HrCommune
            else e.HrCommune
          | none => e.HrCommune } := by
  unfold blockCommune
  split
  · rename_i communeID h
    simp only [h]
    split
    · split
      · split <;> simp_all
      · simp_all
    · rfl
  · rename_i h; simp only [h]

theorem blockPhoto_eq (data : JMap) (e : HrEmployee) :
    blockPhoto data e =
      { e with
        Image1920 := data.get "image_1920"
        PhotoURL :=
          if (data.get "image_1920").neFalse = true ∧ (data.get "image_1920").neNil = true then
            "/web/image?model=hr.employee&id=" ++ formatInt e.ID ++ "&field=image_1920"
          else e.PhotoURL } := by
  unfold blockPhoto
  simp only
  split <;> rfl

theorem blockBirthday_eq (data : JMap) (e : HrEmployee) :
    blockBirthday data e =
      { e with
        Birthday := data.get "birthday"
        BirthdayParsed := match (data.get "birthday").asString with
          | some birthdayStr =>
            if birthdayStr ≠ "" then
              match timeParseDate birthdayStr.data with
              | some t => some t
              | none => e.BirthdayParsed
            else e.BirthdayParsed
          | none => e.BirthdayParsed } := by
  unfold blockBirthday
  simp only
  split
  · rename_i s h
    split
    · split <;> simp_all
    · rfl
  · rfl

/-- Closed form of `parseEmployeeData`: every field of the result as a function of the
raw record. -/
theorem parseEmployeeData_closed (data : JMap) :
    parseEmployeeData data =
      { ID := match (data.get "id").asFloat64 with
          | some id => floatToInt id
          | none => 0
        IdentificationID := match (data.get "identification_id").asString with
          | some v => v
          | none => ""
        Name := match (data.get "name").asString with
          | some name => name
          | none => ""
        FirstName := match (data.get "name").asString with
          | some name =>
            if (stringsSplitSpace name).length > 0 then (stringsSplitSpace name).getD 0 ""
            else ""
          | none => ""
        Surname := match (data.get "name").asString with
          | some name =>
            if (stringsSplitSpace name).length > 1 then (stringsSplitSpace name).getD 1 ""
            else ""
          | none => ""
        SecondSurname := match (data.get "name").asString with
          | some name =>
            if (stringsSplitSpace name).length > 2 then (stringsSplitSpace name).getD 2 ""
            else ""
          | none => ""
        CountryID := match (data.get "country_id").asSlice with
          | some countryID => if countryID.length = 2 then some countryID else none
          | none => none
        Nationality := match (data.get "country_id").asSlice with
          | some countryID =>
            if countryID.length = 2 then
              match (countryID.getD 0 Json.null).asFloat64,
                    (countryID.getD 1 Json.null).asString with
              | some id, some name => some { ID := floatToInt id, Name := name, Code := "" }
              | _, _ => none
            else none
          | none => none
        WorkEmail := match (data.get "work_email").asString with
          | some v => v
          | none => ""
        PrivateEmail := match (data.get "private_email").asString with
          | some v => v
          | none => ""
        WorkPhone := match (data.get "work_phone").asString with
          | some v => v
          | none => ""
        PrivatePhone := match (data.get "private_phone").asString with
          | some v => v
          | none => ""
        PrivateStreet := match (data.get "private_street").asString with
          | some v => v
          | none => ""
        PrivateCity := match (data.get "private_city").asString with
          | some v => v
          | none => ""
        PrivateStateID := match (data.get "private_state_id").asSlice with
          | some stateID => if stateID.length = 2 then some stateID else none
          | none => none
        PrivateAddress :=
          if (match (data.get "private_street").asString with
              | some v => v
              | none => "") ≠ "" then
            some { Street := match (data.get "private_street").asString with
                     | some v => v
                     | none => ""
                   City := match (data.get "private_city").asString with
                     | some v => v
                     | none => ""
                   State := stateLabel data }
          else none
        HrCommuneID := match (data.get "hr_commune").asSlice with
          | some communeID => if communeID.length = 2 then some communeID else none
          | none => none
        HrCommune := match (data.get "hr_commune").asSlice with
          | some communeID =>
            if communeID.length = 2 then
              match (communeID.getD 0 Json.null).asFloat64,
                    (communeID.getD 1 Json.null).asString with
              | some id, some name => some { ID := floatToInt id, Name := name }
              | _, _ => none
            else none
          | none => none
        Image1920 := data.get "image_1920"
        PhotoURL :=
          if (data.get "image_1920").neFalse = true ∧ (data.get "image_1920").neNil = true then
            "/web/image?model=hr.employee&id=" ++
              formatInt (match (data.get "id").asFloat64 with
                | some id => floatToInt id
                | none => 0) ++ "&field=image_1920"
          else ""
        Birthday := data.get "birthday"
        BirthdayParsed := match (data.get "birthday").asString with
          | some birthdayStr =>
            if birthdayStr ≠ "" then
              match timeParseDate birthdayStr.data with
              | some t => some t
              | none => none
            else none
          | none => none
        Gender := match (data.get "gender").asString with
          | some v => v
          | none => "" } := by
  rw [parseEmployeeData_blocks]
  simp only [blockID_eq, blockIdentificationID_eq, blockName_eq, blockCountry_eq,
    blockWorkEmail_eq, blockPrivateEmail_eq, blockWorkPhone_eq, blockPrivatePhone_eq,
    blockPrivateStreet_eq, blockPrivateCity_eq, blockState_eq, blockAddress_eq,
    blockCommune_eq, blockPhoto_eq, blockBirthday_eq, blockGender_eq]
  rfl

/-! ### Facts about the string helpers -/

theorem splitChars_ne_nil (sep : Char) (cs : List Char) : splitChars sep cs ≠ [] := by
  cases cs with
  | nil => simp [splitChars]
  | cons c cs =>
    unfold splitChars
    split
    · simp
    · split <;> simp

theorem splitChars_intercalate (sep : Char) (cs : List Char) :
    List.intercalate [sep] (splitChars sep cs) = cs := by
  induction cs with
  | nil => simp [splitChars, List.intercalate]
  | cons c cs ih =>
    unfold splitChars
    split
    · rename_i h
      cases hr : splitChars sep cs with
      | nil => exact absurd hr (splitChars_ne_nil sep cs)
      | cons p ps =>
        rw [hr] at ih
        simp only [List.intercalate] at ih ⊢
        simp [List.intersperse, ih, h]
    · cases hr : splitChars sep cs with
      | nil => exact absurd hr (splitChars_ne_nil sep cs)
      | cons p ps =>
        rw [hr] at ih
        simp only [List.intercalate] at ih ⊢
        cases ps with
        | nil => simpa [List.intersperse] using ih
        | cons q qs => simpa [List.intersperse] using ih

theorem splitChars_no_sep (sep : Char) (cs : List Char) :
    ∀ p ∈ splitChars sep cs, sep ∉ p := by
  induction cs with
  | nil => simp [splitChars]
  | cons c cs ih =>
    unfold splitChars
    split
    · intro p hp
      rcases List.mem_cons.1 hp with rfl | hp
      · simp
      · exact ih p hp
    · rename_i hc
      cases hr : splitChars sep cs with
      | nil => exact absurd hr (splitChars_ne_nil sep cs)
      | cons q qs =>
        rw [hr] at ih
        intro p hp
        rcases List.mem_cons.1 hp with rfl | hp
        · intro hmem
          rcases List.mem_cons.1 hmem with h | h
          · exact hc h.symm
          · exact ih q (List.mem_cons_self _ _) h
        · exact ih p (List.mem_cons_of_mem _ hp)

theorem asString_get (data : JMap) (key : String) :
    (match (data.get key).asString with
      | some v => v
      | none => "") = rawStringOrEmpty data key := by
  unfold rawStringOrEmpty JMap.get
  cases data.find key with
  | none => rfl
  | some v => cases v <;> rfl

/-! ## Claims about the field mapper -/

/-- Claim C1. For a raw record whose `country_id` (respectively `hr_commune`) is the
two-element array `[n, s]` with `n` a number and `s` a string, `parseEmployeeData`
returns a non-nil `Nationality` (respectively `HrCommune`) with `ID = int(n)`,
`Name = s` (and `Code = ""`), and `CountryID` (respectively `HrCommuneID`) is the raw
array unchanged. -/
theorem parseEmployeeData_tuple_fields (data : JMap) (n : ℚ) (s : String) :
    (data.get "country_id" = Json.arr [Json.num n, Json.str s] →
      (parseEmployeeData data).Nationality
          = some { ID := floatToInt n, Code := "", Name := s } ∧
      (parseEmployeeData data).CountryID = some [Json.num n, Json.str s]) ∧
    (data.get "hr_commune" = Json.arr [Json.num n, Json.str s] →
      (parseEmployeeData data).HrCommune = some { ID := floatToInt n, Name := s } ∧
      (parseEmployeeData data).HrCommuneID = some [Json.num n, Json.str s]) := by
  rw [parseEmployeeData_closed]
  constructor
  · intro h
    simp [h, Json.asSlice, Json.asFloat64, Json.asString]
  · intro h
    simp [h, Json.asSlice, Json.asFloat64, Json.asString]

theorem parseEmployeeData_tuple_fields_witness :
    ((parseEmployeeData tupleSample).Nationality
        = some { ID := floatToInt 46, Code := "", Name := "Chile" } ∧
      (parseEmployeeData tupleSample).CountryID = some [Json.num 46, Json.str "Chile"]) ∧
    ((parseEmployeeData tupleSample).HrCommune
        = some { ID := floatToInt 46, Name := "Chile" } ∧
      (parseEmployeeData tupleSample).HrCommuneID = some [Json.num 46, Json.str "Chile"]) :=
  ⟨(parseEmployeeData_tuple_fields tupleSample 46 "Chile").1 rfl,
   (parseEmployeeData_tuple_fields tupleSample 46 "Chile").2 rfl⟩

/-- Claim C2. False-for-absent convention: each of the nine string fields of the result is
the raw string when the raw value is a string and the empty string when it is `false`,
missing or of another type; and when `country_id`, `private_state_id` or `hr_commune`
is `false`, the corresponding `CountryID` / `PrivateStateID` / `HrCommuneID` is nil and
`Nationality` / `HrCommune` is nil. -/
theorem parseEmployeeData_false_for_absent (data : JMap) :
    (parseEmployeeData data).IdentificationID = rawStringOrEmpty data "identification_id" ∧
    (parseEmployeeData data).Name = rawStringOrEmpty data "name" ∧
    (parseEmployeeData data).WorkEmail = rawStringOrEmpty data "work_email" ∧
    (parseEmployeeData data).PrivateEmail = rawStringOrEmpty data "private_email" ∧
    (parseEmployeeData data).WorkPhone = rawStringOrEmpty data "work_phone" ∧
    (parseEmployeeData data).PrivatePhone = rawStringOrEmpty data "private_phone" ∧
    (parseEmployeeData data).PrivateStreet = rawStringOrEmpty data "private_street" ∧
    (parseEmployeeData data).PrivateCity = rawStringOrEmpty data "private_city" ∧
    (parseEmployeeData data).Gender = rawStringOrEmpty data "gender" ∧
    (data.get "country_id" = Json.bool false →
      (parseEmployeeData data).CountryID = none ∧
      (parseEmployeeData data).Nationality = none) ∧
    (data.get "private_state_id" = Json.bool false →
      (parseEmployeeData data).PrivateStateID = none) ∧
    (data.get "hr_commune" = Json.bool false →
      (parseEmployeeData data).HrCommuneID = none ∧
      (parseEmployeeData data).HrCommune = none) := by
  rw [parseEmployeeData_closed]
  simp only [asString_get]
  refine ⟨trivial, trivial, trivial, trivial, trivial, trivial, trivial, trivial, trivial,
    ?_, ?_, ?_⟩
  · intro h; simp [h, Json.asSlice]
  · intro h; simp [h, Json.asSlice]
  · intro h; simp [h, Json.asSlice]

theorem parseEmployeeData_false_for_absent_witness :
    (parseEmployeeData absentSample).Name = "Ana Perez" ∧
    (parseEmployeeData absentSample).WorkEmail = "" ∧
    (parseEmployeeData absentSample).PrivateCity = "" ∧
    (parseEmployeeData absentSample).Gender = "" ∧
    ((parseEmployeeData absentSample).CountryID = none ∧
      (parseEmployeeData absentSample).Nationality = none) ∧
    (parseEmployeeData absentSample).PrivateStateID = none ∧
    ((parseEmployeeData absentSample).HrCommuneID = none ∧
      (parseEmployeeData absentSample).HrCommune = none) :=
  have h := parseEmployeeData_false_for_absent absentSample
  ⟨h.2.1, h.2.2.1, h.2.2.2.2.2.2.2.1, h.2.2.2.2.2.2.2.2.1,
   h.2.2.2.2.2.2.2.2.2.1 rfl, h.2.2.2.2.2.2.2.2.2.2.1 rfl, h.2.2.2.2.2.2.2.2.2.2.2 rfl⟩

theorem photoURL_ne_empty (i : Int) :
    "/web/image?model=hr.employee&id=" ++ formatInt i ++ "&field=image_1920" ≠ "" := by
  intro h
  have h2 := congrArg String.length h
  simp only [String.length_append] at h2
  have h3 : "&field=image_1920".length = 17 := by decide
  have h4 : "".length = 0 := by decide
  omega

theorem neFalse_neNil_iff (data : JMap) (key : String) :
    ((data.get key).neFalse = true ∧ (data.get key).neNil = true) ↔
      ∃ v, data.find key = some v ∧ v ≠ Json.bool false ∧ v ≠ Json.null := by
  unfold JMap.get
  cases data.find key with
  | none => simp [Json.neNil]
  | some v =>
    cases v with
    | bool b => cases b <;> simp [Json.neFalse, Json.neNil]
    | _ => simp [Json.neFalse, Json.neNil]

/-- Claim C5. Image presence check: `Image1920` is the raw `image_1920` value unchanged;
`PhotoURL` is `"/web/image?model=hr.employee&id=<ID>&field=image_1920"`, with `<ID>` the
decimal rendering of the parsed ID, exactly when `image_1920` is present and is neither
`false` nor null; when it is `false`, null or missing, `PhotoURL` is empty. -/
theorem parseEmployeeData_photo (data : JMap) :
    (parseEmployeeData data).Image1920 = data.get "image_1920" ∧
    ((parseEmployeeData data).PhotoURL =
        "/web/image?model=hr.employee&id=" ++ formatInt (parseEmployeeData data).ID
          ++ "&field=image_1920"
      ↔ ∃ v, data.find "image_1920" = some v ∧ v ≠ Json.bool false ∧ v ≠ Json.null) ∧
    ((data.find "image_1920" = none ∨ data.find "image_1920" = some (Json.bool false) ∨
        data.find "image_1920" = some Json.null) →
      (parseEmployeeData data).PhotoURL = "") := by
  rw [parseEmployeeData_closed]
  refine ⟨rfl, ?_, ?_⟩
  · rw [← neFalse_neNil_iff]
    by_cases hc : (data.get "image_1920").neFalse = true ∧ (data.get "image_1920").neNil = true
    · simp only [hc, and_self, if_true, iff_true]
    · rw [if_neg hc]
      exact ⟨fun h => absurd h.symm (photoURL_ne_empty _), fun h => absurd h hc⟩
  · intro h
    have hc : ¬((data.get "image_1920").neFalse = true ∧
        (data.get "image_1920").neNil = true) := by
      rw [neFalse_neNil_iff]
      rintro ⟨v, hv, h1, h2⟩
      rcases h with h | h | h
      · rw [h] at hv; cases hv
      · rw [h] at hv; cases hv; exact h1 rfl
      · rw [h] at hv; cases hv; exact h2 rfl
    simp only [if_neg hc]

theorem parseEmployeeData_photo_witness :
    (parseEmployeeData photoSample).PhotoURL
      = "/web/image?model=hr.employee&id=42&field=image_1920" ∧
    (parseEmployeeData absentSample).PhotoURL = "" :=
  ⟨((parseEmployeeData_photo photoSample).2.1.2
      ⟨Json.str "iVBORw0KGgo=", rfl, by simp, by simp⟩).trans (by decide),
   (parseEmployeeData_photo absentSample).2.2 (Or.inl rfl)⟩

/-- Claim C10. Name parsing: when the raw `name` is a string, `Name` is the whole string and
`FirstName`, `Surname`, `SecondSurname` are the first, second and third pieces of the name
split at every single space (the pieces contain no space and, joined by single spaces,
give back the name), with the empty string for a missing piece; further pieces are
discarded. -/
theorem parseEmployeeData_name_parts (data : JMap) (name : String)
    (h : data.get "name" = Json.str name) :
    (parseEmployeeData data).Name = name ∧
    (parseEmployeeData data).FirstName = (stringsSplitSpace name).getD 0 "" ∧
    (parseEmployeeData data).Surname = (stringsSplitSpace name).getD 1 "" ∧
    (parseEmployeeData data).SecondSurname = (stringsSplitSpace name).getD 2 "" ∧
    List.intercalate [' '] ((stringsSplitSpace name).map String.data) = name.data ∧
    ∀ p ∈ stringsSplitSpace name, ' ' ∉ p.data := by
  have hd : ∀ (l : List String) (k : Nat),
      (if l.length > k then l.getD k "" else "") = l.getD k "" := by
    intro l k
    split
    · rfl
    · rw [List.getD_eq_default _ _ (by omega)]
  refine ⟨?_, ?_, ?_, ?_, ?_, ?_⟩
  · rw [parseEmployeeData_closed]; simp only [h, Json.asString]
  · rw [parseEmployeeData_closed]; simp only [h, Json.asString]; exact hd _ 0
  · rw [parseEmployeeData_closed]; simp only [h, Json.asString]; exact hd _ 1
  · rw [parseEmployeeData_closed]; simp only [h, Json.asString]; exact hd _ 2
  · unfold stringsSplitSpace
    rw [List.map_map]
    have : (String.data ∘ String.mk) = id := by funext x; rfl
    rw [this, List.map_id]
    exact splitChars_intercalate ' ' name.data
  · intro p hp
    unfold stringsSplitSpace at hp
    rcases List.mem_map.1 hp with ⟨q, hq, rfl⟩
    exact splitChars_no_sep ' ' name.data q hq

theorem parseEmployeeData_name_parts_witness :
    (parseEmployeeData nameSample).Name = "Ana Maria Perez Soto" ∧
    (parseEmployeeData nameSample).FirstName = "Ana" ∧
    (parseEmployeeData nameSample).Surname = "Maria" ∧
    (parseEmployeeData nameSample).SecondSurname = "Perez" :=
  have h := parseEmployeeData_name_parts nameSample "Ana Maria Perez Soto" rfl
  ⟨h.1, h.2.1.trans (by decide), h.2.2.1.trans (by decide), h.2.2.2.1.trans (by decide)⟩

/-! ### `time.Parse` on the date layout -/

theorem isDigit_iff (c : Char) : c.isDigit = true ↔ 48 ≤ c.toNat ∧ c.toNat ≤ 57 := by
  unfold Char.isDigit Char.toNat
  simp only [Bool.and_eq_true, decide_eq_true_eq, ge_iff_le]
  exact Iff.rfl

theorem leadingInt_digit (x : Nat) (c : Char) (cs : List Char)
    (hc : 48 ≤ c.toNat ∧ c.toNat ≤ 57) (hx : x ≤ 99999) :
    leadingInt x (c :: cs) = leadingInt (x * 10 + digitVal c) cs := by
  unfold digitVal
  rw [leadingInt]
  have h1 : ¬(c.toNat < 48 ∨ c.toNat > 57) := by omega
  have h2 : ¬(x > 2 ^ 63 / 10) := by norm_num; omega
  have h3 : ¬(x * 10 + c.toNat - 48 > 2 ^ 63) := by norm_num; omega
  simp only [h1, h2, h3, if_false]
  congr 1
  omega

theorem leadingInt_nondigit (x : Nat) (c : Char) (cs : List Char)
    (hc : ¬(48 ≤ c.toNat ∧ c.toNat ≤ 57)) :
    leadingInt x (c :: cs) = some (x, c :: cs) := by
  rw [leadingInt]
  have h1 : (c.toNat < 48 ∨ c.toNat > 57) := by omega
  simp only [h1, if_true]

theorem timeAtoi_four (a b c d : Char) (ha : 48 ≤ a.toNat ∧ a.toNat ≤ 57) :
    timeAtoi [a, b, c, d] =
      if (48 ≤ b.toNat ∧ b.toNat ≤ 57) ∧ (48 ≤ c.toNat ∧ c.toNat ≤ 57) ∧
          (48 ≤ d.toNat ∧ d.toNat ≤ 57) then
        some ((1000 * digitVal a + 100 * digitVal b + 10 * digitVal c + digitVal d : Nat) : Int)
      else none := by
  have hm : a ≠ '-' := by
    intro h; subst h; revert ha; decide
  have hp : a ≠ '+' := by
    intro h; subst h; revert ha; decide
  unfold timeAtoi
  simp only [hm, hp, or_self, if_false, decide_False]
  rw [leadingInt_digit 0 a _ ha (by omega)]
  by_cases hb : 48 ≤ b.toNat ∧ b.toNat ≤ 57
  · have ha9 : digitVal a ≤ 9 := by unfold digitVal; omega
    have hb9 : digitVal b ≤ 9 := by unfold digitVal; omega
    rw [leadingInt_digit _ b _ hb (by omega)]
    by_cases hc : 48 ≤ c.toNat ∧ c.toNat ≤ 57
    · have hc9 : digitVal c ≤ 9 := by unfold digitVal; omega
      rw [leadingInt_digit _ c _ hc (by omega)]
      by_cases hd : 48 ≤ d.toNat ∧ d.toNat ≤ 57
      · rw [leadingInt_digit _ d _ hd (by omega)]
        simp only [leadingInt, hb, hc, hd, and_self, if_true, List.length_nil, gt_iff_lt,
          lt_self_iff_false, if_false, Bool.false_eq_true]
        congr 2
        omega
      · rw [leadingInt_nondigit _ d _ hd]
        simp [hd]
    · rw [leadingInt_nondigit _ c _ hc]
      simp [hc]
  · rw [leadingInt_nondigit _ b _ hb]
    simp [hb]

theorem getnum_cons_cons (a b : Char) (s2 : List Char) :
    getnum (a :: b :: s2) true =
      if (48 ≤ a.toNat ∧ a.toNat ≤ 57) ∧ (48 ≤ b.toNat ∧ b.toNat ≤ 57) then
        some (digitVal a * 10 + digitVal b, s2)
      else none := by
  by_cases ha : 48 ≤ a.toNat ∧ a.toNat ≤ 57
  · by_cases hb : 48 ≤ b.toNat ∧ b.toNat ≤ 57
    · simp [getnum, isDigit, ha, hb]
    · simp [getnum, isDigit, ha, hb]
  · simp [getnum, isDigit, ha]

theorem getnum_fixed (s rest : List Char) (n : Nat) :
    getnum s true = some (n, rest) ↔
      ∃ a b, s = a :: b :: rest ∧ (48 ≤ a.toNat ∧ a.toNat ≤ 57) ∧
        (48 ≤ b.toNat ∧ b.toNat ≤ 57) ∧ n = digitVal a * 10 + digitVal b := by
  rcases s with _ | ⟨a, _ | ⟨b, s2⟩⟩
  · simp [getnum, isDigit]
  · simp [getnum, isDigit]
  · rw [getnum_cons_cons]
    constructor
    · intro h
      split at h
      · rename_i hd
        injection h with h
        injection h with h1 h2
        exact ⟨a, b, by rw [h2], hd.1, hd.2, h1.symm⟩
      · cases h
    · rintro ⟨a2, b2, hs, ha, hb, hn⟩
      injection hs with h1 hs
      injection hs with h2 h3
      subst h1 h2 h3
      rw [if_pos ⟨ha, hb⟩, hn]

theorem skipDash_iff (s rest : List Char) : skipDash s = some rest ↔ s = '-' :: rest := by
  rcases s with _ | ⟨a, s1⟩
  · simp [skipDash]
  · by_cases h : a = '-'
    · simp [skipDash, h]
    · simp [skipDash, h]

theorem isLeap_iff (y : Int) (hy : 0 ≤ y) : isLeap y = true ↔ gregorianLeap y := by
  unfold isLeap gregorianLeap
  rw [decide_eq_true_iff, Int.tmod_eq_emod hy (by norm_num), Int.tmod_eq_emod hy (by norm_num),
    Int.tmod_eq_emod hy (by norm_num)]
  omega

theorem daysIn_eq (m : Nat) (y : Int) (hm : 1 ≤ m ∧ m ≤ 12) (hy : 0 ≤ y) :
    daysIn m y = calendarDaysInMonth y m := by
  unfold daysIn calendarDaysInMonth
  obtain ⟨h1, h2⟩ := hm
  by_cases hl : gregorianLeap y
  · have := (isLeap_iff y hy).2 hl
    interval_cases m <;> simp [this, hl, daysBefore]
  · have : ¬ isLeap y = true := fun h => hl ((isLeap_iff y hy).1 h)
    interval_cases m <;> simp [this, hl, daysBefore]

theorem timeParseDate_iff (s : String) (t : Time) :
    timeParseDate s.data = some t ↔ DenotesDate s t := by
  constructor
  · intro h
    unfold timeParseDate at h
    split at h
    · cases h
    rename_i h0
    have hlen : 4 ≤ s.data.length := by omega
    have hd0 : isDigit s.data 0 = true := by
      cases hx : isDigit s.data 0
      · exact absurd (Or.inr hx) h0
      · rfl
    rcases hs : s.data with _ | ⟨y1, _ | ⟨y2, _ | ⟨y3, _ | ⟨y4, r0⟩⟩⟩⟩
    · rw [hs] at hlen; simp at hlen
    · rw [hs] at hlen; simp at hlen
    · rw [hs] at hlen; simp at hlen
    · rw [hs] at hlen; simp at hlen
    rw [hs] at h hd0
    have hy1 : 48 ≤ y1.toNat ∧ y1.toNat ≤ 57 := by
      simpa [isDigit] using hd0
    simp only [List.take, List.drop] at h
    rw [timeAtoi_four _ _ _ _ hy1] at h
    split at h
    · cases h
    rename_i year hyear
    split at hyear
    · rename_i hyd
      injection hyear with hyear
      split at h
      · cases h
      rename_i r1 hr1
      rw [skipDash_iff] at hr1
      split at h
      · cases h
      rename_i month r2 hm
      rw [getnum_fixed] at hm
      obtain ⟨m1, m2, hr1b, hm1, hm2, hmv⟩ := hm
      split at h
      · cases h
      rename_i hmr
      split at h
      · cases h
      rename_i r3 hr3
      rw [skipDash_iff] at hr3
      split at h
      · cases h
      rename_i day r4 hdn
      rw [getnum_fixed] at hdn
      obtain ⟨d1, d2, hr3b, hd1, hd2, hdv⟩ := hdn
      split at h
      · cases h
      rename_i hr4
      split at h
      · cases h
      rename_i hdr
      injection h with h
      have hr4n : r4 = [] := by
        cases r4 with
        | nil => rfl
        | cons _ _ => simp at hr4
      subst hr4n hr3b hr3 hr1b hr1
      have hy0 : (0 : Int) ≤ year := by rw [← hyear]; exact Int.natCast_nonneg _
      have hmr2 : 1 ≤ month ∧ month ≤ 12 := by omega
      rw [daysIn_eq month year hmr2 hy0] at hdr
      refine ⟨y1, y2, y3, y4, m1, m2, d1, d2, hs, ?_, ?_, ?_, ?_, ?_⟩
      · simp only [isDigit_iff]
        exact ⟨hy1, hyd.1, hyd.2.1, hyd.2.2, hm1, hm2, hd1, hd2⟩
      · rw [← h]; exact hyear.symm
      · rw [← h]; simp only; omega
      · rw [← h]; simp only; omega
      · rw [← h]; simp only; omega
    · cases hyear
  · rintro ⟨y1, y2, y3, y4, m1, m2, d1, d2, hs, hdig, hy, hm, hd, hm1, hm12, hd1, hdmax⟩
    simp only [isDigit_iff] at hdig
    obtain ⟨hy1, hy2, hy3, hy4, hmd1, hmd2, hdd1, hdd2⟩ := hdig
    have hy0 : (0 : Int) ≤ t.year := by rw [hy]; exact Int.natCast_nonneg _
    rw [← daysIn_eq t.month t.year ⟨hm1, hm12⟩ hy0] at hdmax
    rw [hs]
    unfold timeParseDate
    have hd0 : isDigit [y1, y2, y3, y4, '-', m1, m2, '-', d1, d2] 0 = true := by
      simp [isDigit, hy1]
    have c0 : ¬([y1, y2, y3, y4, '-', m1, m2, '-', d1, d2].length < 4 ∨
        isDigit [y1, y2, y3, y4, '-', m1, m2, '-', d1, d2] 0 = false) := by
      rw [hd0]; simp
    rw [if_neg c0]
    simp only [List.take, List.drop]
    rw [timeAtoi_four _ _ _ _ hy1, if_pos ⟨hy2, hy3, hy4⟩]
    simp only [skipDash, if_true, getnum_cons_cons, hmd1, hmd2, hdd1, hdd2, and_self]
    have e1 : digitVal m1 * 10 + digitVal m2 = t.month := by omega
    have e2 : digitVal d1 * 10 + digitVal d2 = t.day := by omega
    rw [e1, e2, ← hy]
    have c1 : ¬(t.month ≤ 0 ∨ 12 < t.month) := by omega
    have c2 : ¬(t.day < 1 ∨ t.day > daysIn t.month t.year) := by omega
    simp only [c1, c2, if_false, List.length_nil, ne_eq, not_true_eq_false]

/-- Claim C6. Birthday date parsing: `Birthday` is the raw `birthday` value unchanged;
`BirthdayParsed` is non-nil if and only if the raw birthday is a non-empty string denoting
a valid calendar date in the form `YYYY-MM-DD`, and then it is that year, month and day;
when `birthday` is `false`, missing, empty or malformed, `BirthdayParsed` is nil (the
function is total: no error is raised). -/
theorem parseEmployeeData_birthday (data : JMap) :
    (parseEmployeeData data).Birthday = data.get "birthday" ∧
    (∀ t : Time, (parseEmployeeData data).BirthdayParsed = some t ↔
      ∃ s, data.get "birthday" = Json.str s ∧ s ≠ "" ∧ DenotesDate s t) ∧
    ((data.find "birthday" = none ∨ data.get "birthday" = Json.bool false ∨
        data.get "birthday" = Json.str "" ∨
        ∃ s, data.get "birthday" = Json.str s ∧ ∀ t, ¬ DenotesDate s t) →
      (parseEmployeeData data).BirthdayParsed = none) := by
  have key : ∀ t : Time, (parseEmployeeData data).BirthdayParsed = some t ↔
      ∃ s, data.get "birthday" = Json.str s ∧ s ≠ "" ∧ DenotesDate s t := by
    intro t
    rw [parseEmployeeData_closed]
    simp only
    cases hb : data.get "birthday" with
    | str s =>
      simp only [Json.asString]
      by_cases he : s = ""
      · simp [he]
      · rw [if_pos he]
        cases hp : timeParseDate s.data with
        | none =>
          simp only [false_iff, reduceCtorEq]
          rintro ⟨s2, h1, _, h3⟩
          injection h1 with h1
          subst h1
          rw [← timeParseDate_iff, hp] at h3
          cases h3
        | some t2 =>
          simp only [Option.some.injEq]
          constructor
          · intro h
            subst h
            exact ⟨s, rfl, he, (timeParseDate_iff s t2).1 hp⟩
          · rintro ⟨s2, h1, _, h3⟩
            injection h1 with h1
            subst h1
            rw [← timeParseDate_iff, hp] at h3
            injection h3
    | _ => simp [Json.asString]
  refine ⟨by rw [parseEmployeeData_closed], key, ?_⟩
  intro h
  cases hres : (parseEmployeeData data).BirthdayParsed with
  | none => rfl
  | some t =>
    obtain ⟨s, h1, h2, h3⟩ := (key t).1 hres
    rcases h with h | h | h | ⟨s2, h, hno⟩
    · unfold JMap.get at h1; rw [h] at h1; cases h1
    · rw [h] at h1; cases h1
    · rw [h] at h1; injection h1 with h1; exact absurd h1.symm h2
    · rw [h] at h1; injection h1 with h1; subst h1; exact absurd h3 (hno t)

theorem parseEmployeeData_birthday_witness :
    (parseEmployeeData birthdaySample).BirthdayParsed
      = some { year := 2000, month := 2, day := 29 } ∧
    (parseEmployeeData absentSample).BirthdayParsed = none :=
  ⟨((parseEmployeeData_birthday birthdaySample).2.1 _).2
      ⟨"2000-02-29", rfl, by decide,
        ⟨'2', '0', '0', '0', '0', '2', '2', '9', rfl, by decide, by decide, by decide,
          by decide, by decide, by decide, by decide, by decide⟩⟩,
   (parseEmployeeData_birthday absentSample).2.2 (Or.inl rfl)⟩

/-- Claim C8. `NewConfigFromEnv` returns an error (and no `Config`) if and only if
`ODOO_URL` is empty, or `ODOO_DATABASE` is empty, or `ODOO_API_KEY` is empty while at
least one of `ODOO_USERNAME` and `ODOO_PASSWORD` is empty; otherwise it returns a `Config`
carrying exactly those five environment values with `ClientID = "default"` and
`ClientName = "Default Client"`. -/
theorem NewConfigFromEnv_validation (getenv : String → String) :
    ((∃ err, NewConfigFromEnv getenv = Except.error err) ↔
      (getenv "ODOO_URL" = "" ∨ getenv "ODOO_DATABASE" = "" ∨
        (getenv "ODOO_API_KEY" = "" ∧
          (getenv "ODOO_USERNAME" = "" ∨ getenv "ODOO_PASSWORD" = "")))) ∧
    (¬(getenv "ODOO_URL" = "" ∨ getenv "ODOO_DATABASE" = "" ∨
        (getenv "ODOO_API_KEY" = "" ∧
          (getenv "ODOO_USERNAME" = "" ∨ getenv "ODOO_PASSWORD" = ""))) →
      NewConfigFromEnv getenv =
        Except.ok
          { URL := getenv "ODOO_URL", Database := getenv "ODOO_DATABASE",
            Username := getenv "ODOO_USERNAME", Password := getenv "ODOO_PASSWORD",
            APIKey := getenv "ODOO_API_KEY", ClientID := "default",
            ClientName := "Default Client" }) := by
  unfold NewConfigFromEnv
  by_cases h1 : getenv "ODOO_URL" = ""
  · simp [h1]
  · by_cases h2 : getenv "ODOO_DATABASE" = ""
    · simp [h1, h2]
    · by_cases h3 : getenv "ODOO_API_KEY" = "" ∧
          (getenv "ODOO_USERNAME" = "" ∨ getenv "ODOO_PASSWORD" = "")
      · simp only [h1, h2, h3, if_false, if_true, and_self, or_true, false_or]
        simp
      · simp only [h1, h2, h3, if_false, or_false, false_or]
        simp

theorem NewConfigFromEnv_validation_witness :
    NewConfigFromEnv apiKeyEnv =
      Except.ok
        { URL := "https://odoo.example.com", Database := "prod", Username := "admin",
          Password := "", APIKey := "k3y", ClientID := "default",
          ClientName := "Default Client" } ∧
    ∃ err, NewConfigFromEnv (fun _ => "") = Except.error err :=
  ⟨(NewConfigFromEnv_validation apiKeyEnv).2 (by decide),
   (NewConfigFromEnv_validation (fun _ => "")).1.2 (Or.inl rfl)⟩

theorem doRequest_net (c : Client) (net : Net) (p : jsonRPCRequest) :
    (c.doRequest net p).2 = { net with log := net.log ++ [p] } := by
  unfold Client.doRequest
  simp only
  split
  · rfl
  · rfl
  · rfl
  · split
    · rfl
    · split <;> rfl

theorem authPayload_secret (c : Client) :
    authenticatePayload c c.GetAuthPassword =
      if c.APIKey ≠ "" then authenticatePayload c c.APIKey
      else authenticatePayload c c.Password := by
  unfold Client.GetAuthPassword
  split <;> rfl

/-- Closed form of `Authenticate` in terms of the outcome of its single request. -/
theorem Authenticate_cases (c : Client) (net : Net) :
    (c.Authenticate net).2.2 =
      { net with log := net.log ++ [authenticatePayload c c.GetAuthPassword] } ∧
    (match (c.doRequest net (authenticatePayload c c.GetAuthPassword)).1 with
     | Except.error _ => (c.Authenticate net).1 ≠ none ∧ (c.Authenticate net).2.1 = c
     | Except.ok response =>
       match response.Error with
       | some _ => (c.Authenticate net).1 ≠ none ∧ (c.Authenticate net).2.1 = c
       | none =>
         match response.Result with
         | Json.num uid =>
           if uid = 0 then (c.Authenticate net).1 ≠ none ∧ (c.Authenticate net).2.1 = c
           else (c.Authenticate net).1 = none ∧
                (c.Authenticate net).2.1 = { c with UID := floatToInt uid }
         | _ => (c.Authenticate net).1 ≠ none ∧ (c.Authenticate net).2.1 = c) := by
  rw [authPayload_secret]
  unfold Client.Authenticate
  by_cases hk : c.APIKey ≠ ""
  · simp only [if_pos hk]
    generalize hr : c.doRequest net (authenticatePayload c c.APIKey) = r
    have hn := doRequest_net c net (authenticatePayload c c.APIKey)
    rw [hr] at hn
    obtain ⟨r1, r2⟩ := r
    simp only at hn
    subst hn
    cases r1 with
    | error e => simp
    | ok response =>
      simp only
      cases hE : response.Error with
      | some e => simp
      | none =>
        simp only
        cases hR : response.Result with
        | num uid =>
          simp only [Json.asFloat64]
          by_cases hu : uid = 0
          · simp [hu]
          · simp [hu]
        | _ => simp [Json.asFloat64]
  · simp only [if_neg hk]
    generalize hr : c.doRequest net (authenticatePayload c c.Password) = r
    have hn := doRequest_net c net (authenticatePayload c c.Password)
    rw [hr] at hn
    obtain ⟨r1, r2⟩ := r
    simp only at hn
    subst hn
    cases r1 with
    | error e => simp
    | ok response =>
      simp only
      cases hE : response.Error with
      | some e => simp
      | none =>
        simp only
        cases hR : response.Result with
        | num uid =>
          simp only [Json.asFloat64]
          by_cases hu : uid = 0
          · simp [hu]
          · simp [hu]
        | _ => simp [Json.asFloat64]

/-- Claim C7. `Authenticate` returns no error if and only if its JSON-RPC request succeeds,
the response carries no error object and the result is a JSON number different from 0; on
success the client's UID becomes that number converted to an integer, and on every
failure the client is left unchanged. The request carries the API key when one is
configured and the password otherwise (`GetAuthPassword`), so both paths are covered. -/
theorem Authenticate_result (c : Client) (net : Net) :
    ((c.Authenticate net).1 = none ↔
      ∃ response uid,
        (c.doRequest net (authenticatePayload c c.GetAuthPassword)).1 = Except.ok response ∧
        response.Error = none ∧ response.Result = Json.num uid ∧ uid ≠ 0) ∧
    (∀ response uid,
      (c.doRequest net (authenticatePayload c c.GetAuthPassword)).1 = Except.ok response →
      response.Error = none → response.Result = Json.num uid → uid ≠ 0 →
      (c.Authenticate net).2.1 = { c with UID := floatToInt uid }) ∧
    ((c.Authenticate net).1 ≠ none → (c.Authenticate net).2.1 = c) := by
  have h := (Authenticate_cases c net).2
  cases hr : (c.doRequest net (authenticatePayload c c.GetAuthPassword)).1 with
  | error e =>
    rw [hr] at h
    simp only at h
    refine ⟨⟨fun h1 => absurd h1 h.1, ?_⟩, ?_, fun _ => h.2⟩
    · rintro ⟨response, uid, h1, _⟩; cases h1
    · intro response uid h1; cases h1
  | ok resp =>
    rw [hr] at h
    simp only at h
    cases hE : resp.Error with
    | some e =>
      rw [hE] at h
      simp only at h
      refine ⟨⟨fun h1 => absurd h1 h.1, ?_⟩, ?_, fun _ => h.2⟩
      · rintro ⟨response, uid, h1, h2, _⟩
        injection h1 with h1; subst h1; rw [hE] at h2; cases h2
      · intro response uid h1 h2
        injection h1 with h1; subst h1; rw [hE] at h2; cases h2
    | none =>
      rw [hE] at h
      simp only at h
      cases hR : resp.Result with
      | num q =>
        rw [hR] at h
        simp only at h
        by_cases hq : q = 0
        · rw [if_pos hq] at h
          refine ⟨⟨fun h1 => absurd h1 h.1, ?_⟩, ?_, fun _ => h.2⟩
          · rintro ⟨response, uid, h1, _, h3, h4⟩
            injection h1 with h1; subst h1; rw [hR] at h3
            injection h3 with h3; exact absurd (h3 ▸ hq) h4
          · intro response uid h1 _ h3 h4
            injection h1 with h1; subst h1; rw [hR] at h3
            injection h3 with h3; exact absurd (h3 ▸ hq) h4
        · rw [if_neg hq] at h
          refine ⟨⟨fun _ => ⟨resp, q, rfl, hE, hR, hq⟩, fun _ => h.1⟩, ?_,
            fun h1 => absurd h.1 h1⟩
          intro response uid h1 _ h3 _
          injection h1 with h1; subst h1; rw [hR] at h3
          injection h3 with h3; subst h3; exact h.2
      | null | bool _ | str _ | arr _ | obj _ =>
        rw [hR] at h
        simp only at h
        refine ⟨⟨fun h1 => absurd h1 h.1, ?_⟩, ?_, fun _ => h.2⟩
        · rintro ⟨response, uid, h1, _, h3, _⟩
          injection h1 with h1; subst h1; rw [hR] at h3; cases h3
        · intro response uid h1 _ h3
          injection h1 with h1; subst h1; rw [hR] at h3; cases h3

theorem Authenticate_result_witness :
    ((freshClient.Authenticate friendlyNet).1 = none ∧
      (freshClient.Authenticate friendlyNet).2.1 = { freshClient with UID := floatToInt 7 }) ∧
    (freshClient.Authenticate deadNet).2.1 = freshClient :=
  ⟨⟨(Authenticate_result freshClient friendlyNet).1.2
      ⟨{ JSONRPC := "2.0", ID := 1, Result := Json.num 7, Error := none }, 7, rfl, rfl, rfl,
        by decide⟩,
    (Authenticate_result freshClient friendlyNet).2.1
      { JSONRPC := "2.0", ID := 1, Result := Json.num 7, Error := none } 7 rfl rfl rfl
      (by decide)⟩,
   (Authenticate_result freshClient deadNet).2.2 (by decide)⟩

theorem GetAllEmployees_net (c : Client) (net : Net) :
    (GetAllEmployees c net).2 =
      if c.UID = 0 then net
      else { net with
             log := net.log ++ [executePayload c "search_read" (Json.arr [Json.arr []])] } := by
  unfold GetAllEmployees
  split
  · rfl
  · simp only
    generalize hr : c.doRequest net _ = r
    have hn := doRequest_net c net (executePayload c "search_read" (Json.arr [Json.arr []]))
    rw [hr] at hn
    obtain ⟨r1, r2⟩ := r
    simp only at hn
    subst hn
    cases r1 with
    | error e => rfl
    | ok response =>
      simp only
      cases response.Error with
      | some e => rfl
      | none =>
        simp only
        cases response.Result.asSlice <;> rfl

theorem GetEmployeeByID_net (c : Client) (net : Net) (employeeID : Int) :
    (GetEmployeeByID c net employeeID).2 =
      if c.UID = 0 then net
      else { net with
             log := net.log ++
               [executePayload c "read" (Json.arr [Json.arr [Json.num (employeeID : ℚ)]])] } := by
  unfold GetEmployeeByID
  split
  · rfl
  · simp only
    generalize hr : c.doRequest net _ = r
    have hn := doRequest_net c net
      (executePayload c "read" (Json.arr [Json.arr [Json.num (employeeID : ℚ)]]))
    rw [hr] at hn
    obtain ⟨r1, r2⟩ := r
    simp only at hn
    subst hn
    cases r1 with
    | error e => rfl
    | ok response =>
      simp only
      cases response.Error with
      | some e => rfl
      | none =>
        simp only
        cases response.Result.asSlice with
        | none => rfl
        | some sl =>
          cases sl with
          | nil => rfl
          | cons first rest =>
            simp only
            cases first.asMap <;> rfl

theorem handleGetEmployees_some (s : Server) (net : Net) (r : Request) (c : Client)
    (hm : r.Method = "GET") (hc : s.odooClient = some c) :
    handleGetEmployees s net r =
      match (lazyAuthenticate c net).1 with
      | some err =>
        { response :=
            sendJSON 503 [("error", BodyValue.str ("Error autenticando con Odoo: " ++ err))],
          server := { s with odooClient := some (lazyAuthenticate c net).2.1 },
          net := (lazyAuthenticate c net).2.2 }
      | none =>
        match (GetAllEmployees (lazyAuthenticate c net).2.1 (lazyAuthenticate c net).2.2).1 with
        | Except.error err =>
          { response :=
              sendJSON 500
                [("error", BodyValue.str ("Error obteniendo empleados: " ++ err))],
            server := { s with odooClient := some (lazyAuthenticate c net).2.1 },
            net := (GetAllEmployees (lazyAuthenticate c net).2.1
                      (lazyAuthenticate c net).2.2).2 }
        | Except.ok employees =>
          { response :=
              sendJSON 200
                [("success", BodyValue.bool true),
                 ("count", BodyValue.int employees.length),
                 ("data", BodyValue.employees employees)],
            server := { s with odooClient := some (lazyAuthenticate c net).2.1 },
            net := (GetAllEmployees (lazyAuthenticate c net).2.1
                      (lazyAuthenticate c net).2.2).2 } := by
  unfold handleGetEmployees
  simp only [hm, hc, ne_eq, not_true_eq_false, if_false]
  generalize lazyAuthenticate c net = a
  obtain ⟨a1, a2, a3⟩ := a
  simp only
  cases a1 with
  | some err => rfl
  | none =>
    simp only
    generalize GetAllEmployees a2 a3 = g
    obtain ⟨g1, g2⟩ := g
    cases g1 <;> rfl


theorem trimPrefix_append (pre rest : String) : stringsTrimPrefix (pre ++ rest) pre = rest := by
  unfold stringsTrimPrefix
  have h : pre.data.isPrefixOf (pre ++ rest).data = true := by
    rw [String.data_append, List.isPrefixOf_iff_prefix]
    exact List.prefix_append _ _
  rw [if_pos h, String.data_append, List.drop_left]

theorem ne_append_of_ne_empty (pre rest : String) (h : pre ≠ "") : rest ≠ pre ++ rest := by
  intro he
  have hl := congrArg String.length he
  rw [String.length_append] at hl
  have : pre.length ≠ 0 := by
    intro h0
    apply h
    have : pre.data = [] := List.length_eq_zero.1 h0
    exact String.ext this
  omega

theorem handleGetEmployeeByID_some (s : Server) (net : Net) (r : Request) (c : Client)
    (employeeID : Int) (hm : r.Method = "GET")
    (hp : ¬(stringsTrimPrefix r.Path "/api/v1/employees/" = "" ∨
            stringsTrimPrefix r.Path "/api/v1/employees/" = r.Path))
    (hid : strconvAtoi (stringsTrimPrefix r.Path "/api/v1/employees/") = some employeeID)
    (hc : s.odooClient = some c) :
    handleGetEmployeeByID s net r =
      match (lazyAuthenticate c net).1 with
      | some err =>
        { response :=
            sendJSON 503 [("error", BodyValue.str ("Error autenticando con Odoo: " ++ err))],
          server := { s with odooClient := some (lazyAuthenticate c net).2.1 },
          net := (lazyAuthenticate c net).2.2 }
      | none =>
        match (GetEmployeeByID (lazyAuthenticate c net).2.1 (lazyAuthenticate c net).2.2
                employeeID).1 with
        | Except.error err =>
          { response :=
              sendJSON 404 [("error", BodyValue.str ("Empleado no encontrado: " ++ err))],
            server := { s with odooClient := some (lazyAuthenticate c net).2.1 },
            net := (GetEmployeeByID (lazyAuthenticate c net).2.1
                      (lazyAuthenticate c net).2.2 employeeID).2 }
        | Except.ok employee =>
          { response :=
              sendJSON 200
                [("success", BodyValue.bool true), ("data", BodyValue.employee employee)],
            server := { s with odooClient := some (lazyAuthenticate c net).2.1 },
            net := (GetEmployeeByID (lazyAuthenticate c net).2.1
                      (lazyAuthenticate c net).2.2 employeeID).2 } := by
  unfold handleGetEmployeeByID
  simp only [hm, hc, hp, hid, ne_eq, not_true_eq_false, if_false]
  generalize lazyAuthenticate c net = a
  obtain ⟨a1, a2, a3⟩ := a
  simp only
  cases a1 with
  | some err => rfl
  | none =>
    simp only
    generalize GetEmployeeByID a2 a3 employeeID = g
    obtain ⟨g1, g2⟩ := g
    cases g1 <;> rfl

/-- Claim C9. Priority order of `handleGetEmployeeByID` on a path
`"/api/v1/employees/" ++ rest`: a method other than GET gives 405; otherwise an empty
remainder delegates to the list handler; otherwise a remainder that `strconv.Atoi` does
not accept as a decimal integer gives 400; otherwise a nil Odoo client gives 503;
otherwise a failed lazy authentication gives 503; otherwise any error of `GetEmployeeByID`
gives 404; otherwise the answer is 200 with `success = true` and the employee as `data`.
In the 405 and 400 cases nothing is forwarded to Odoo. -/
theorem handleGetEmployeeByID_priority (s : Server) (net : Net) (method rest : String) :
    (method ≠ "GET" →
      (handleGetEmployeeByID s net
          { Method := method, Path := "/api/v1/employees/" ++ rest }).response.status = 405 ∧
      (handleGetEmployeeByID s net
          { Method := method, Path := "/api/v1/employees/" ++ rest }).net = net) ∧
    (method = "GET" → rest = "" →
      handleGetEmployeeByID s net { Method := method, Path := "/api/v1/employees/" ++ rest }
        = handleGetEmployees s net
            { Method := method, Path := "/api/v1/employees/" ++ rest }) ∧
    (method = "GET" → rest ≠ "" → strconvAtoi rest = none →
      (handleGetEmployeeByID s net
          { Method := method, Path := "/api/v1/employees/" ++ rest }).response.status = 400 ∧
      (handleGetEmployeeByID s net
          { Method := method, Path := "/api/v1/employees/" ++ rest }).net = net) ∧
    (method = "GET" → rest ≠ "" → ∀ employeeID, strconvAtoi rest = some employeeID →
      (s.odooClient = none →
        (handleGetEmployeeByID s net
            { Method := method, Path := "/api/v1/employees/" ++ rest }).response.status
          = 503) ∧
      (∀ c, s.odooClient = some c →
        (∀ err, (lazyAuthenticate c net).1 = some err →
          (handleGetEmployeeByID s net
              { Method := method, Path := "/api/v1/employees/" ++ rest }).response.status
            = 503) ∧
        ((lazyAuthenticate c net).1 = none →
          (∀ err,
            (GetEmployeeByID (lazyAuthenticate c net).2.1 (lazyAuthenticate c net).2.2
                employeeID).1 = Except.error err →
            (handleGetEmployeeByID s net
                { Method := method, Path := "/api/v1/employees/" ++ rest }).response.status
              = 404) ∧
          (∀ employee,
            (GetEmployeeByID (lazyAuthenticate c net).2.1 (lazyAuthenticate c net).2.2
                employeeID).1 = Except.ok employee →
            (handleGetEmployeeByID s net
                { Method := method, Path := "/api/v1/employees/" ++ rest }).response
              = { status := 200,
                  body := [("success", BodyValue.bool true),
                           ("data", BodyValue.employee employee)] })))) := by
  have htrim : stringsTrimPrefix ("/api/v1/employees/" ++ rest) "/api/v1/employees/" = rest :=
    trimPrefix_append _ _
  have hne : rest ≠ "/api/v1/employees/" ++ rest :=
    ne_append_of_ne_empty _ _ (by decide)
  refine ⟨?_, ?_, ?_, ?_⟩
  · intro hm
    unfold handleGetEmployeeByID
    simp only [ne_eq, hm, not_false_eq_true, if_true]
    exact ⟨rfl, trivial⟩
  · intro hm hr
    subst hr
    unfold handleGetEmployeeByID
    simp only [hm, htrim, ne_eq, not_true_eq_false, if_false, true_or, if_true]
  · intro hm hr hid
    unfold handleGetEmployeeByID
    simp only [hm, htrim, hr, hne, hid, ne_eq, not_true_eq_false, if_false, or_self]
    exact ⟨rfl, trivial⟩
  · intro hm hr employeeID hid
    have hp : ¬(stringsTrimPrefix
          ({ Method := method, Path := "/api/v1/employees/" ++ rest } : Request).Path
          "/api/v1/employees/" = "" ∨
        stringsTrimPrefix
          ({ Method := method, Path := "/api/v1/employees/" ++ rest } : Request).Path
          "/api/v1/employees/" =
          ({ Method := method, Path := "/api/v1/employees/" ++ rest } : Request).Path) := by
      simp only [htrim]
      exact fun h => h.elim hr hne
    constructor
    · intro hc
      unfold handleGetEmployeeByID
      simp only [hm, htrim, hr, hne, hid, hc, ne_eq, not_true_eq_false, if_false, or_self]
      rfl
    · intro c hc
      have heq := handleGetEmployeeByID_some s net
        { Method := method, Path := "/api/v1/employees/" ++ rest } c employeeID hm hp
        (by simp only [htrim]; exact hid) hc
      rw [heq]
      constructor
      · intro err herr
        rw [herr]
        rfl
      · intro hok
        rw [hok]
        constructor
        · intro err herr
          simp only [herr]
          rfl
        · intro employee hemp
          simp only [hemp]
          rfl

theorem handleGetEmployeeByID_priority_witness :
    (handleGetEmployeeByID freshServer friendlyNet
        { Method := "POST", Path := "/api/v1/employees/" ++ "12" }).response.status = 405 ∧
    (handleGetEmployeeByID freshServer friendlyNet
        { Method := "GET", Path := "/api/v1/employees/" ++ "abc" }).response.status = 400 ∧
    (handleGetEmployeeByID bareServer friendlyNet
        { Method := "GET", Path := "/api/v1/employees/" ++ "12" }).response.status = 503 ∧
    (handleGetEmployeeByID freshServer deadNet
        { Method := "GET", Path := "/api/v1/employees/" ++ "12" }).response.status = 503 ∧
    (handleGetEmployeeByID freshServer friendlyNet
        { Method := "GET", Path := "/api/v1/employees/" ++ "12" }).response.status = 404 ∧
    (handleGetEmployeeByID freshServer recordNet
        { Method := "GET", Path := "/api/v1/employees/" ++ "12" }).response.status = 200 :=
  ⟨((handleGetEmployeeByID_priority freshServer friendlyNet "POST" "12").1 (by decide)).1,
   ((handleGetEmployeeByID_priority freshServer friendlyNet "GET" "abc").2.2.1 rfl
      (by decide) (by decide)).1,
   ((handleGetEmployeeByID_priority bareServer friendlyNet "GET" "12").2.2.2 rfl
      (by decide) 12 (by decide)).1 rfl,
   (((handleGetEmployeeByID_priority freshServer deadNet "GET" "12").2.2.2 rfl
      (by decide) 12 (by decide)).2 freshClient rfl).1
        "error en la petición de autenticación con API Key: error al realizar la petición HTTP: connection refused"
        (by decide),
   ((((handleGetEmployeeByID_priority freshServer friendlyNet "GET" "12").2.2.2 rfl
      (by decide) 12 (by decide)).2 freshClient rfl).2 (by decide)).1
        "empleado no encontrado con ID: 12" rfl,
   congrArg Response.status
    (((((handleGetEmployeeByID_priority freshServer recordNet "GET" "12").2.2.2 rfl
      (by decide) 12 (by decide)).2 freshClient rfl).2 (by decide)).2
        (parseEmployeeData [("id", Json.num 12), ("name", Json.str "Ana Perez")]) rfl)⟩

theorem callsSince_append (net : Net) (l : List jsonRPCRequest) :
    callsSince net { net with log := net.log ++ l } = l := by
  unfold callsSince
  simp

theorem callsSince_self (net : Net) : callsSince net net = [] := by
  unfold callsSince
  simp

theorem lazyAuthenticate_ready (c : Client) (net : Net) (h : c.UID ≠ 0) :
    lazyAuthenticate c net = (none, c, net) := by
  unfold lazyAuthenticate
  rw [if_neg h]

theorem lazyAuthenticate_fresh (c : Client) (net : Net) (h : c.UID = 0) :
    lazyAuthenticate c net = c.Authenticate net := by
  unfold lazyAuthenticate
  rw [if_pos h]

theorem Authenticate_net (c : Client) (net : Net) :
    (c.Authenticate net).2.2 =
      { net with log := net.log ++ [authenticatePayload c c.GetAuthPassword] } :=
  (Authenticate_cases c net).1

theorem Authenticate_client_of_error (c : Client) (net : Net) (err : String)
    (h : (c.Authenticate net).1 = some err) : (c.Authenticate net).2.1 = c := by
  have hne : (c.Authenticate net).1 ≠ none := by rw [h]; exact Option.some_ne_none err
  have hc := (Authenticate_cases c net).2
  split at hc
  · exact hc.2
  · split at hc
    · exact hc.2
    · split at hc
      · split at hc
        · exact hc.2
        · exact absurd hc.1 hne
      · exact hc.2

/-- What the list handler leaves behind for a GET request with a configured client. -/
theorem handleGetEmployees_after (s : Server) (net : Net) (r : Request) (c : Client)
    (hm : r.Method = "GET") (hc : s.odooClient = some c) :
    (handleGetEmployees s net r).server.odooClient = some (lazyAuthenticate c net).2.1 ∧
    (∀ err, (lazyAuthenticate c net).1 = some err →
      (handleGetEmployees s net r).response.status = 503 ∧
      (handleGetEmployees s net r).net = (lazyAuthenticate c net).2.2) ∧
    ((lazyAuthenticate c net).1 = none →
      (handleGetEmployees s net r).net =
        (GetAllEmployees (lazyAuthenticate c net).2.1 (lazyAuthenticate c net).2.2).2) := by
  rw [handleGetEmployees_some s net r c hm hc]
  cases ha : (lazyAuthenticate c net).1 with
  | some e =>
    refine ⟨rfl, ?_, ?_⟩
    · intro err _; exact ⟨rfl, rfl⟩
    · intro h; cases h
  | none =>
    simp only
    cases hg : (GetAllEmployees (lazyAuthenticate c net).2.1 (lazyAuthenticate c net).2.2).1 with
    | error e =>
      refine ⟨rfl, ?_, ?_⟩
      · intro err h; cases h
      · intro _; rfl
    | ok es =>
      refine ⟨rfl, ?_, ?_⟩
      · intro err h; cases h
      · intro _; rfl

/-- What the by-id handler leaves behind for a GET request with a decimal id and a
configured client. -/
theorem handleGetEmployeeByID_after (s : Server) (net : Net) (r : Request) (c : Client)
    (employeeID : Int) (hm : r.Method = "GET")
    (hp : ¬(stringsTrimPrefix r.Path "/api/v1/employees/" = "" ∨
            stringsTrimPrefix r.Path "/api/v1/employees/" = r.Path))
    (hid : strconvAtoi (stringsTrimPrefix r.Path "/api/v1/employees/") = some employeeID)
    (hc : s.odooClient = some c) :
    (handleGetEmployeeByID s net r).server.odooClient = some (lazyAuthenticate c net).2.1 ∧
    (∀ err, (lazyAuthenticate c net).1 = some err →
      (handleGetEmployeeByID s net r).response.status = 503 ∧
      (handleGetEmployeeByID s net r).net = (lazyAuthenticate c net).2.2) ∧
    ((lazyAuthenticate c net).1 = none →
      (handleGetEmployeeByID s net r).net =
        (GetEmployeeByID (lazyAuthenticate c net).2.1 (lazyAuthenticate c net).2.2
          employeeID).2) := by
  rw [handleGetEmployeeByID_some s net r c employeeID hm hp hid hc]
  cases ha : (lazyAuthenticate c net).1 with
  | some e =>
    refine ⟨rfl, ?_, ?_⟩
    · intro err _; exact ⟨rfl, rfl⟩
    · intro h; cases h
  | none =>
    simp only
    cases hg : (GetEmployeeByID (lazyAuthenticate c net).2.1 (lazyAuthenticate c net).2.2
        employeeID).1 with
    | error e =>
      refine ⟨rfl, ?_, ?_⟩
      · intro err h; cases h
      · intro _; rfl
    | ok es =>
      refine ⟨rfl, ?_, ?_⟩
      · intro err h; cases h
      · intro _; rfl

theorem calls_after_lazy_query (c : Client) (net : Net) (q : Client → jsonRPCRequest)
    (after : Net)
    (hfail : ∀ err, (lazyAuthenticate c net).1 = some err →
      after = (lazyAuthenticate c net).2.2)
    (hok : (lazyAuthenticate c net).1 = none →
      after =
        if (lazyAuthenticate c net).2.1.UID = 0 then (lazyAuthenticate c net).2.2
        else { (lazyAuthenticate c net).2.2 with
               log := (lazyAuthenticate c net).2.2.log ++ [q (lazyAuthenticate c net).2.1] }) :
    (c.UID ≠ 0 → callsSince net after = [q c]) ∧
    (c.UID = 0 →
      callsSince net after =
        authenticatePayload c c.GetAuthPassword ::
          (if (c.Authenticate net).1 = none ∧ (c.Authenticate net).2.1.UID ≠ 0 then
            [q (c.Authenticate net).2.1]
           else [])) := by
  constructor
  · intro hu
    rw [lazyAuthenticate_ready c net hu] at hok
    have h := hok rfl
    simp only [hu, if_false] at h
    rw [h]
    exact callsSince_append net _
  · intro hu
    rw [lazyAuthenticate_fresh c net hu] at hok hfail
    have hn := Authenticate_net c net
    cases ha : (c.Authenticate net).1 with
    | some err =>
      rw [hfail err ha, hn]
      simp only [reduceCtorEq, false_and, if_false]
      exact callsSince_append net _
    | none =>
      rw [hok ha]
      by_cases h0 : (c.Authenticate net).2.1.UID = 0
      · rw [if_pos h0, hn]
        simp only [h0, ne_eq, not_true_eq_false, and_false, if_false]
        exact callsSince_append net _
      · rw [if_neg h0, hn]
        simp only [h0, ne_eq, not_false_eq_true, and_self, if_true]
        have := callsSince_append net
          [authenticatePayload c c.GetAuthPassword, q (c.Authenticate net).2.1]
        simpa using this

theorem handleGetEmployees_calls (s : Server) (net : Net) (r : Request) (c : Client)
    (hm : r.Method = "GET") (hc : s.odooClient = some c) :
    (c.UID ≠ 0 →
      callsSince net (handleGetEmployees s net r).net =
        [executePayload c "search_read" (Json.arr [Json.arr []])]) ∧
    (c.UID = 0 →
      callsSince net (handleGetEmployees s net r).net =
        authenticatePayload c c.GetAuthPassword ::
          (if (c.Authenticate net).1 = none ∧ (c.Authenticate net).2.1.UID ≠ 0 then
            [executePayload (c.Authenticate net).2.1 "search_read" (Json.arr [Json.arr []])]
           else [])) := by
  have h := handleGetEmployees_after s net r c hm hc
  exact calls_after_lazy_query c net
    (fun c => executePayload c "search_read" (Json.arr [Json.arr []])) _
    (fun err he => (h.2.1 err he).2)
    (fun hok => by rw [h.2.2 hok, GetAllEmployees_net])

theorem handleGetEmployeeByID_calls (s : Server) (net : Net) (r : Request) (c : Client)
    (employeeID : Int) (hm : r.Method = "GET")
    (hp : ¬(stringsTrimPrefix r.Path "/api/v1/employees/" = "" ∨
            stringsTrimPrefix r.Path "/api/v1/employees/" = r.Path))
    (hid : strconvAtoi (stringsTrimPrefix r.Path "/api/v1/employees/") = some employeeID)
    (hc : s.odooClient = some c) :
    (c.UID ≠ 0 →
      callsSince net (handleGetEmployeeByID s net r).net =
        [executePayload c "read" (Json.arr [Json.arr [Json.num (employeeID : ℚ)]])]) ∧
    (c.UID = 0 →
      callsSince net (handleGetEmployeeByID s net r).net =
        authenticatePayload c c.GetAuthPassword ::
          (if (c.Authenticate net).1 = none ∧ (c.Authenticate net).2.1.UID ≠ 0 then
            [executePayload (c.Authenticate net).2.1 "read"
              (Json.arr [Json.arr [Json.num (employeeID : ℚ)]])]
           else [])) := by
  have h := handleGetEmployeeByID_after s net r c employeeID hm hp hid hc
  exact calls_after_lazy_query c net
    (fun c => executePayload c "read" (Json.arr [Json.arr [Json.num (employeeID : ℚ)]])) _
    (fun err he => (h.2.1 err he).2)
    (fun hok => by rw [h.2.2 hok, GetEmployeeByID_net])

theorem handleGetEmployees_rejected (s : Server) (net : Net) (r : Request)
    (h : r.Method ≠ "GET" ∨ s.odooClient = none) :
    (handleGetEmployees s net r).net = net := by
  unfold handleGetEmployees
  by_cases hm : r.Method = "GET"
  · rcases h with h | h
    · exact absurd hm h
    · simp only [hm, h, ne_eq, not_true_eq_false, if_false]
  · simp only [ne_eq, hm, not_false_eq_true, if_true]

theorem handleGetEmployeeByID_rejected (s : Server) (net : Net) (r : Request)
    (h : r.Method ≠ "GET" ∨
      (¬(stringsTrimPrefix r.Path "/api/v1/employees/" = "" ∨
          stringsTrimPrefix r.Path "/api/v1/employees/" = r.Path) ∧
        (strconvAtoi (stringsTrimPrefix r.Path "/api/v1/employees/") = none ∨
          s.odooClient = none))) :
    (handleGetEmployeeByID s net r).net = net := by
  unfold handleGetEmployeeByID
  by_cases hm : r.Method = "GET"
  · rcases h with h | ⟨hp, h⟩
    · exact absurd hm h
    · simp only [hm, hp, ne_eq, not_true_eq_false, if_false]
      rcases h with h | h
      · simp only [h]
      · cases strconvAtoi (stringsTrimPrefix r.Path "/api/v1/employees/") with
        | none => rfl
        | some employeeID => simp only [h]
  · simp only [ne_eq, hm, not_false_eq_true, if_true]

theorem handleGetEmployeeByID_delegates (s : Server) (net : Net) (r : Request)
    (hm : r.Method = "GET")
    (hp : stringsTrimPrefix r.Path "/api/v1/employees/" = "" ∨
          stringsTrimPrefix r.Path "/api/v1/employees/" = r.Path) :
    handleGetEmployeeByID s net r = handleGetEmployees s net r := by
  unfold handleGetEmployeeByID
  simp only [hm, hp, ne_eq, not_true_eq_false, if_false, if_true]

/-- Claim C3, as the code has it. Neither handler forwards exactly one JSON-RPC call for
every request. A request rejected with 405, with 400 or for a missing Odoo client forwards
nothing. A GET request (with a decimal id for the by-id handler) and a configured client
forwards exactly one call, the employee query, when the client's UID is non-zero on
arrival; when the UID is 0 it forwards the authenticate call first, followed by the
employee query only if authentication succeeds and leaves a non-zero UID. The by-id
handler on a path without id behaves as the list handler. -/
theorem handlers_forwarded_calls (s : Server) (net : Net) (r : Request) :
    ((r.Method ≠ "GET" ∨ s.odooClient = none) →
      callsSince net (handleGetEmployees s net r).net = []) ∧
    (∀ c, r.Method = "GET" → s.odooClient = some c →
      (c.UID ≠ 0 →
        callsSince net (handleGetEmployees s net r).net =
          [executePayload c "search_read" (Json.arr [Json.arr []])]) ∧
      (c.UID = 0 →
        callsSince net (handleGetEmployees s net r).net =
          authenticatePayload c c.GetAuthPassword ::
            (if (c.Authenticate net).1 = none ∧ (c.Authenticate net).2.1.UID ≠ 0 then
              [executePayload (c.Authenticate net).2.1 "search_read"
                (Json.arr [Json.arr []])]
             else []))) ∧
    ((r.Method ≠ "GET" ∨
        (¬(stringsTrimPrefix r.Path "/api/v1/employees/" = "" ∨
            stringsTrimPrefix r.Path "/api/v1/employees/" = r.Path) ∧
          (strconvAtoi (stringsTrimPrefix r.Path "/api/v1/employees/") = none ∨
            s.odooClient = none))) →
      callsSince net (handleGetEmployeeByID s net r).net = []) ∧
    (r.Method = "GET" →
      (stringsTrimPrefix r.Path "/api/v1/employees/" = "" ∨
        stringsTrimPrefix r.Path "/api/v1/employees/" = r.Path) →
      handleGetEmployeeByID s net r = handleGetEmployees s net r) ∧
    (∀ c employeeID, r.Method = "GET" →
      ¬(stringsTrimPrefix r.Path "/api/v1/employees/" = "" ∨
          stringsTrimPrefix r.Path "/api/v1/employees/" = r.Path) →
      strconvAtoi (stringsTrimPrefix r.Path "/api/v1/employees/") = some employeeID →
      s.odooClient = some c →
      (c.UID ≠ 0 →
        callsSince net (handleGetEmployeeByID s net r).net =
          [executePayload c "read" (Json.arr [Json.arr [Json.num (employeeID : ℚ)]])]) ∧
      (c.UID = 0 →
        callsSince net (handleGetEmployeeByID s net r).net =
          authenticatePayload c c.GetAuthPassword ::
            (if (c.Authenticate net).1 = none ∧ (c.Authenticate net).2.1.UID ≠ 0 then
              [executePayload (c.Authenticate net).2.1 "read"
                (Json.arr [Json.arr [Json.num (employeeID : ℚ)]])]
             else []))) := by
  refine ⟨?_, ?_, ?_, ?_, ?_⟩
  · intro h
    rw [handleGetEmployees_rejected s net r h]
    exact callsSince_self net
  · intro c hm hc
    exact handleGetEmployees_calls s net r c hm hc
  · intro h
    rw [handleGetEmployeeByID_rejected s net r h]
    exact callsSince_self net
  · intro hm hp
    exact handleGetEmployeeByID_delegates s net r hm hp
  · intro c employeeID hm hp hid hc
    exact handleGetEmployeeByID_calls s net r c employeeID hm hp hid hc

/-- Counterexample to claim C3 as stated. A GET for the employee list that arrives while
the client's UID is 0 forwards two JSON-RPC calls (authenticate, then `search_read`), and a POST
forwards none: not exactly one call per request. -/
theorem exactly_one_call_counterexample :
    (callsSince friendlyNet (handleGetEmployees freshServer friendlyNet listRequest).net).length
      = 2 ∧
    (callsSince friendlyNet (handleGetEmployees freshServer friendlyNet postRequest).net).length
      = 0 ∧
    ¬ (∀ (s : Server) (net : Net) (r : Request),
        (callsSince net (handleGetEmployees s net r).net).length = 1) := by
  refine ⟨by decide, by decide, ?_⟩
  intro h
  exact absurd (h freshServer friendlyNet postRequest) (by decide)

theorem handlers_forwarded_calls_witness :
    callsSince friendlyNet (handleGetEmployees readyServer friendlyNet listRequest).net =
      [executePayload { freshClient with UID := 7 } "search_read" (Json.arr [Json.arr []])] ∧
    callsSince friendlyNet (handleGetEmployees freshServer friendlyNet postRequest).net = [] ∧
    callsSince friendlyNet (handleGetEmployeeByID readyServer friendlyNet byIdRequest).net =
      [executePayload { freshClient with UID := 7 } "read"
        (Json.arr [Json.arr [Json.num ((12 : Int) : ℚ)]])] :=
  ⟨((handlers_forwarded_calls readyServer friendlyNet listRequest).2.1
      { freshClient with UID := 7 } rfl rfl).1 (by decide),
   (handlers_forwarded_calls freshServer friendlyNet postRequest).1 (Or.inl (by decide)),
   ((handlers_forwarded_calls readyServer friendlyNet byIdRequest).2.2.2.2
      { freshClient with UID := 7 } 12 rfl (by decide) (by decide) rfl).1 (by decide)⟩

theorem isAuthenticateCall_authenticate (c : Client) (secret : String) :
    isAuthenticateCall (authenticatePayload c secret) = true := by
  simp [isAuthenticateCall, authenticatePayload, JMap.get, JMap.find]

theorem isAuthenticateCall_execute (c : Client) (method : String) (positional : Json) :
    isAuthenticateCall (executePayload c method positional) = false := by
  simp [isAuthenticateCall, executePayload, JMap.get, JMap.find]

theorem lazy_calls_filter (c : Client) (net : Net) (calls : List jsonRPCRequest)
    (m : String) (p : Json)
    (h1 : c.UID ≠ 0 → calls = [executePayload c m p])
    (h2 : c.UID = 0 →
      calls = authenticatePayload c c.GetAuthPassword ::
        (if (c.Authenticate net).1 = none ∧ (c.Authenticate net).2.1.UID ≠ 0 then
          [executePayload (c.Authenticate net).2.1 m p]
         else [])) :
    (c.UID ≠ 0 → calls.filter isAuthenticateCall = []) ∧
    (c.UID = 0 →
      calls.filter isAuthenticateCall = [authenticatePayload c c.GetAuthPassword]) ∧
    (c.UID = 0 → ∀ err, (c.Authenticate net).1 = some err →
      calls = [authenticatePayload c c.GetAuthPassword]) := by
  refine ⟨?_, ?_, ?_⟩
  · intro hu
    rw [h1 hu]
    simp [isAuthenticateCall_execute]
  · intro hu
    rw [h2 hu]
    split <;> simp [isAuthenticateCall_execute, isAuthenticateCall_authenticate]
  · intro hu err he
    rw [h2 hu]
    simp [he]

/-- Claim C4. Lazy authentication. For a GET request to the list endpoint, or to the by-id
endpoint with a decimal id, and a configured Odoo client: when the client's UID is
non-zero on arrival no authenticate call is sent and the client (hence its UID) is left
unchanged; when the UID is 0 exactly one authenticate call is sent and the client becomes
the one `Authenticate` leaves; and when that lazy `Authenticate` fails the handler answers
503 after forwarding the authenticate call alone (no employee query). -/
theorem lazy_authentication (s : Server) (net : Net) (r : Request) (c : Client)
    (hm : r.Method = "GET") (hc : s.odooClient = some c) :
    ((c.UID ≠ 0 →
        (callsSince net (handleGetEmployees s net r).net).filter isAuthenticateCall = [] ∧
        (handleGetEmployees s net r).server.odooClient = some c) ∧
      (c.UID = 0 →
        (callsSince net (handleGetEmployees s net r).net).filter isAuthenticateCall
          = [authenticatePayload c c.GetAuthPassword] ∧
        (handleGetEmployees s net r).server.odooClient = some (c.Authenticate net).2.1) ∧
      (c.UID = 0 → ∀ err, (c.Authenticate net).1 = some err →
        (handleGetEmployees s net r).response.status = 503 ∧
        callsSince net (handleGetEmployees s net r).net
          = [authenticatePayload c c.GetAuthPassword])) ∧
    (∀ employeeID,
      ¬(stringsTrimPrefix r.Path "/api/v1/employees/" = "" ∨
          stringsTrimPrefix r.Path "/api/v1/employees/" = r.Path) →
      strconvAtoi (stringsTrimPrefix r.Path "/api/v1/employees/") = some employeeID →
      (c.UID ≠ 0 →
        (callsSince net (handleGetEmployeeByID s net r).net).filter isAuthenticateCall = [] ∧
        (handleGetEmployeeByID s net r).server.odooClient = some c) ∧
      (c.UID = 0 →
        (callsSince net (handleGetEmployeeByID s net r).net).filter isAuthenticateCall
          = [authenticatePayload c c.GetAuthPassword] ∧
        (handleGetEmployeeByID s net r).server.odooClient = some (c.Authenticate net).2.1) ∧
      (c.UID = 0 → ∀ err, (c.Authenticate net).1 = some err →
        (handleGetEmployeeByID s net r).response.status = 503 ∧
        callsSince net (handleGetEmployeeByID s net r).net
          = [authenticatePayload c c.GetAuthPassword])) := by
  constructor
  · have ha := handleGetEmployees_after s net r c hm hc
    have hcalls := handleGetEmployees_calls s net r c hm hc
    have hf := lazy_calls_filter c net _ _ _ hcalls.1 hcalls.2
    refine ⟨?_, ?_, ?_⟩
    · intro hu
      refine ⟨hf.1 hu, ?_⟩
      rw [ha.1, lazyAuthenticate_ready c net hu]
    · intro hu
      refine ⟨hf.2.1 hu, ?_⟩
      rw [ha.1, lazyAuthenticate_fresh c net hu]
    · intro hu err he
      refine ⟨?_, hf.2.2 hu err he⟩
      exact (ha.2.1 err (by rw [lazyAuthenticate_fresh c net hu]; exact he)).1
  · intro employeeID hp hid
    have ha := handleGetEmployeeByID_after s net r c employeeID hm hp hid hc
    have hcalls := handleGetEmployeeByID_calls s net r c employeeID hm hp hid hc
    have hf := lazy_calls_filter c net _ _ _ hcalls.1 hcalls.2
    refine ⟨?_, ?_, ?_⟩
    · intro hu
      refine ⟨hf.1 hu, ?_⟩
      rw [ha.1, lazyAuthenticate_ready c net hu]
    · intro hu
      refine ⟨hf.2.1 hu, ?_⟩
      rw [ha.1, lazyAuthenticate_fresh c net hu]
    · intro hu err he
      refine ⟨?_, hf.2.2 hu err he⟩
      exact (ha.2.1 err (by rw [lazyAuthenticate_fresh c net hu]; exact he)).1

theorem lazy_authentication_witness :
    listRequest.Method = "GET" ∧ freshServer.odooClient = some freshClient ∧
    ((callsSince friendlyNet
        (handleGetEmployees freshServer friendlyNet listRequest).net).filter isAuthenticateCall
      = [authenticatePayload freshClient freshClient.GetAuthPassword] ∧
     (handleGetEmployees freshServer friendlyNet listRequest).server.odooClient
      = some (freshClient.Authenticate friendlyNet).2.1) ∧
    ((handleGetEmployees freshServer deadNet listRequest).response.status = 503 ∧
     callsSince deadNet (handleGetEmployees freshServer deadNet listRequest).net
      = [authenticatePayload freshClient freshClient.GetAuthPassword]) :=
  ⟨rfl, rfl,
   (lazy_authentication freshServer friendlyNet listRequest freshClient rfl rfl).1.2.1 rfl,
   (lazy_authentication freshServer deadNet listRequest freshClient rfl rfl).1.2.2 rfl
     "error en la petición de autenticación con API Key: error al realizar la petición HTTP: connection refused"
     (by decide)⟩

theorem stateLabel_tuple (data : JMap) (x : Json) (s : String)
    (h : data.get "private_state_id" = Json.arr [x, Json.str s]) : stateLabel data = s := by
  unfold stateLabel
  simp [h, Json.asSlice, Json.asString]

theorem stateLabel_other (data : JMap)
    (h : ¬ ∃ x s, data.get "private_state_id" = Json.arr [x, Json.str s]) :
    stateLabel data = "" := by
  unfold stateLabel
  cases hg : data.get "private_state_id" with
  | arr xs =>
    simp only [Json.asSlice]
    split
    · rename_i hl
      rcases xs with _ | ⟨x, _ | ⟨y, _ | ⟨z, rest⟩⟩⟩
      · simp at hl
      · simp at hl
      · cases y with
        | str s => exact absurd ⟨x, s, hg⟩ h
        | _ => simp [Json.asString]
      · simp at hl
    · rfl
  | _ => simp [Json.asSlice]

theorem street_get (data : JMap) (street : String) :
    (match (data.get "private_street").asString with
      | some v => v
      | none => "") = street ∧ street ≠ "" ↔
    data.get "private_street" = Json.str street ∧ street ≠ "" := by
  cases hg : data.get "private_street" with
  | str s =>
    simp only [Json.asString, Json.str.injEq]
  | _ =>
    simp only [Json.asString, reduceCtorEq, false_and, iff_false, not_and, not_not]
    intro h; exact h.symm

/-- Claim C11. Address construction: `PrivateAddress` is non-nil if and only if
`private_street` is a non-empty string; when it is non-nil, `Street` is `private_street`,
`City` is `private_city` (the empty string when `private_city` is `false` or not a
string), and `State` is the label `s` of `private_state_id` when that is a two-element
array `[_, s]` with `s` a string, and the empty string otherwise. -/
theorem parseEmployeeData_address (data : JMap) :
    ((parseEmployeeData data).PrivateAddress ≠ none ↔
      ∃ street, data.get "private_street" = Json.str street ∧ street ≠ "") ∧
    (∀ a, (parseEmployeeData data).PrivateAddress = some a →
      data.get "private_street" = Json.str a.Street ∧
      a.City = rawStringOrEmpty data "private_city" ∧
      (data.get "private_city" = Json.bool false → a.City = "") ∧
      (∀ x s, data.get "private_state_id" = Json.arr [x, Json.str s] → a.State = s) ∧
      ((¬ ∃ x s, data.get "private_state_id" = Json.arr [x, Json.str s]) →
        a.State = "")) := by
  have hclosed : (parseEmployeeData data).PrivateAddress =
      if (match (data.get "private_street").asString with
          | some v => v
          | none => "") ≠ "" then
        some { Street := match (data.get "private_street").asString with
                 | some v => v
                 | none => ""
               City := rawStringOrEmpty data "private_city"
               State := stateLabel data }
      else none := by
    rw [parseEmployeeData_closed]
    simp only [asString_get]
  constructor
  · rw [hclosed]
    constructor
    · intro h
      split at h
      · rename_i hs
        exact ⟨_, ((street_get data _).1 ⟨rfl, hs⟩)⟩
      · exact absurd rfl h
    · rintro ⟨street, hs⟩
      have := (street_get data street).2 hs
      rw [if_pos (by rw [this.1]; exact this.2)]
      exact Option.some_ne_none _
  · intro a ha
    rw [hclosed] at ha
    split at ha
    · rename_i hs
      injection ha with ha
      subst ha
      refine ⟨((street_get data _).1 ⟨rfl, hs⟩).1, rfl, ?_, ?_, ?_⟩
      · intro hf
        show rawStringOrEmpty data "private_city" = ""
        rw [← asString_get, hf]
        rfl
      · intro x s h
        exact stateLabel_tuple data x s h
      · intro h
        exact stateLabel_other data h
    · cases ha

theorem parseEmployeeData_address_witness :
    (parseEmployeeData addressSample).PrivateAddress ≠ none ∧
    (∀ a, (parseEmployeeData addressSample).PrivateAddress = some a →
      a.City = "" ∧ a.State = "RM") ∧
    (parseEmployeeData absentSample).PrivateAddress = none :=
  ⟨(parseEmployeeData_address addressSample).1.2 ⟨"Av. Siempre Viva 742", rfl, by decide⟩,
   fun a h =>
    ⟨((parseEmployeeData_address addressSample).2 a h).2.2.1 rfl,
     ((parseEmployeeData_address addressSample).2 a h).2.2.2.1 (Json.num 3) "RM" rfl⟩,
   Classical.not_not.1 (fun h =>
    absurd ((parseEmployeeData_address absentSample).1.1 h) (by
      rintro ⟨street, h1, _⟩
      have h0 : absentSample.get "private_street" = Json.null := rfl
      rw [h0] at h1
      cases h1))⟩

/-- The loop of `GetAllEmployees` appends, in order, the parsed record of every element
that is a JSON object. -/
theorem employees_loop (xs : List Json) (acc : List HrEmployee) :
    xs.foldl
        (fun employees item =>
          match item.asMap with
          | none => employees
          | some empData => employees ++ [parseEmployeeData empData])
        acc =
      acc ++ xs.filterMap (fun item =>
        match item with
        | Json.obj m => some (parseEmployeeData m)
        | _ => none) := by
  induction xs generalizing acc with
  | nil => simp
  | cons x xs ih =>
    rw [List.foldl_cons, ih]
    cases x <;> simp [Json.asMap, List.filterMap_cons]

theorem filterMap_objects_length (xs : List Json) (h : ∀ x ∈ xs, ∃ m, x = Json.obj m) :
    (xs.filterMap (fun item =>
        match item with
        | Json.obj m => some (parseEmployeeData m)
        | _ => none)).length = xs.length := by
  induction xs with
  | nil => rfl
  | cons x xs ih =>
    obtain ⟨m, hm⟩ := h x (List.mem_cons_self _ _)
    subst hm
    rw [List.filterMap_cons]
    simp only [List.length_cons]
    rw [ih (fun y hy => h y (List.mem_cons_of_mem _ hy))]

theorem GetAllEmployees_of_response (c : Client) (net : Net) (response : jsonRPCResponse)
    (hu : c.UID ≠ 0)
    (hr : (c.doRequest net (executePayload c "search_read" (Json.arr [Json.arr []]))).1
            = Except.ok response)
    (hE : response.Error = none) :
    (GetAllEmployees c net).1 =
      match response.Result.asSlice with
      | none => Except.error "formato de respuesta inválido"
      | some resultSlice =>
        Except.ok (resultSlice.filterMap (fun item =>
          match item with
          | Json.obj m => some (parseEmployeeData m)
          | _ => none)) := by
  unfold GetAllEmployees
  rw [if_neg hu]
  simp only
  generalize c.doRequest net (executePayload c "search_read" (Json.arr [Json.arr []])) = p
    at hr
  obtain ⟨p1, p2⟩ := p
  simp only at hr
  subst hr
  simp only [hE]
  cases response.Result.asSlice with
  | none => rfl
  | some sl =>
    simp only [employees_loop, List.nil_append]

theorem handleGetEmployees_ok_body (s : Server) (net : Net) (r : Request)
    (h : (handleGetEmployees s net r).response.status = 200) :
    ∃ employees : List HrEmployee,
      (handleGetEmployees s net r).response.body =
        [("success", BodyValue.bool true),
         ("count", BodyValue.int employees.length),
         ("data", BodyValue.employees employees)] := by
  by_cases hm : r.Method = "GET"
  · cases hc : s.odooClient with
    | none =>
      exfalso
      unfold handleGetEmployees at h
      simp only [hm, hc, ne_eq, not_true_eq_false, if_false] at h
      revert h
      simp [sendJSON]
    | some c =>
      rw [handleGetEmployees_some s net r c hm hc] at h ⊢
      cases ha : (lazyAuthenticate c net).1 with
      | some err =>
        rw [ha] at h
        revert h
        simp [sendJSON]
      | none =>
        rw [ha] at h
        simp only at h ⊢
        cases hg : (GetAllEmployees (lazyAuthenticate c net).2.1
            (lazyAuthenticate c net).2.2).1 with
        | error err =>
          rw [hg] at h
          revert h
          simp [sendJSON]
        | ok employees => exact ⟨employees, rfl⟩
  · exfalso
    unfold handleGetEmployees at h
    simp only [ne_eq, hm, not_false_eq_true, if_true] at h
    revert h
    simp [sendJSON]

/-- Claim C12. For an authenticated client (UID not 0) and an error-free Odoo response,
`GetAllEmployees` fails with "formato de respuesta inválido" when the result is not an
array, and otherwise returns exactly the records obtained by applying
`parseEmployeeData` to each array element that is a JSON object, in the order of the
response, skipping every other element; the returned list is never longer than the
response array and has the same length when every element is an object; and the `count`
that `handleGetEmployees` reports with a 200 answer is the number of records in `data`. -/
theorem GetAllEmployees_result (c : Client) (net : Net) (response : jsonRPCResponse)
    (hu : c.UID ≠ 0)
    (hr : (c.doRequest net (executePayload c "search_read" (Json.arr [Json.arr []]))).1
            = Except.ok response)
    (hE : response.Error = none) :
    ((∀ xs, response.Result ≠ Json.arr xs) →
      (GetAllEmployees c net).1 = Except.error "formato de respuesta inválido") ∧
    (∀ xs, response.Result = Json.arr xs →
      (GetAllEmployees c net).1 =
        Except.ok (xs.filterMap (fun item =>
          match item with
          | Json.obj m => some (parseEmployeeData m)
          | _ => none)) ∧
      (xs.filterMap (fun item =>
          match item with
          | Json.obj m => some (parseEmployeeData m)
          | _ => none)).length ≤ xs.length ∧
      ((∀ x ∈ xs, ∃ m, x = Json.obj m) →
        (xs.filterMap (fun item =>
            match item with
            | Json.obj m => some (parseEmployeeData m)
            | _ => none)).length = xs.length)) ∧
    (∀ (s : Server) (net2 : Net) (r : Request),
      (handleGetEmployees s net2 r).response.status = 200 →
      ∃ employees : List HrEmployee,
        (handleGetEmployees s net2 r).response.body =
          [("success", BodyValue.bool true),
           ("count", BodyValue.int employees.length),
           ("data", BodyValue.employees employees)]) := by
  have hg := GetAllEmployees_of_response c net response hu hr hE
  refine ⟨?_, ?_, ?_⟩
  · intro hna
    rw [hg]
    cases hres : response.Result with
    | arr xs => exact absurd hres (hna xs)
    | _ => rfl
  · intro xs hxs
    refine ⟨?_, List.length_filterMap_le _ _, filterMap_objects_length xs⟩
    rw [hg, hxs]
    rfl
  · intro s net2 r h
    exact handleGetEmployees_ok_body s net2 r h

theorem GetAllEmployees_result_witness :
    readyClient.UID ≠ 0 ∧ mixedResponse.Error = none ∧
    (GetAllEmployees readyClient mixedNet).1 =
      Except.ok [parseEmployeeData [("id", Json.num 12), ("name", Json.str "Ana Perez")],
                 parseEmployeeData [("id", Json.num 13), ("name", Json.str "Luis Soto")]] :=
  ⟨by decide, rfl,
   ((GetAllEmployees_result readyClient mixedNet mixedResponse (by decide) rfl rfl).2.1
      [Json.obj [("id", Json.num 12), ("name", Json.str "Ana Perez")],
       Json.num 5,
       Json.obj [("id", Json.num 13), ("name", Json.str "Luis Soto")]] rfl).1⟩

end OdooSync
